import Mathlib

/-!
Verification development for the financial-model-analyzer backend.

The definitions below are a shallow embedding of the Python sources under
src/backend/app (services/universal_parser.py, services/template_parser.py,
utils/excel_utils.py).  Python dynamic values are modelled explicitly:
cell contents by the CellVal type, dict keys of line-item maps by PyKey
(the parser keys them by int row numbers, but some call sites look them up
by str names), numbers by rationals, raised exceptions by Except/Option.
-/

namespace FMA

/-- Python dict keys used for FinancialStatement.line_items.  The parser
stores int row numbers; drill-down looks items up by str name.  Equality
between an int key and a str key is False, as in Python. -/
inductive PyKey where
  | int (n : Int)
  | str (s : String)
deriving DecidableEq, Repr

/-- Value of a spreadsheet cell as seen through openpyxl: None, a string,
an int or a float. -/
inductive CellVal where
  | none
  | str (s : String)
  | int (n : Int)
  | float (q : ℚ)
deriving DecidableEq, Repr

/-- Python truthiness for cell values: None, the empty string and zero are
falsy. -/
def CellVal.truthy : CellVal → Bool
  | CellVal.none => false
  | CellVal.str s => s ≠ ""
  | CellVal.int n => n ≠ 0
  | CellVal.float q => q ≠ 0

/-- Python str.strip(): drop leading and trailing whitespace. -/
def pyStrip (s : String) : String :=
  String.mk (((s.toList.dropWhile Char.isWhitespace).reverse.dropWhile
    Char.isWhitespace).reverse)

/-- Python substring containment needle in hay (case-sensitive). -/
def containsSub (hay needle : List Char) : Bool :=
  match hay with
  | [] => needle.isEmpty
  | _ :: t => needle.isPrefixOf hay || containsSub t needle

/-- Substring containment at the String level. -/
def strContains (hay needle : String) : Bool :=
  containsSub hay.toList needle.toList

/-- Python str.lower() (ASCII case folding, as in the embedded strings). -/
def lowerList (cs : List Char) : List Char := cs.map Char.toLower

/-- Python str.startswith for a single-character pattern. -/
def startsWithChar (s : String) (c : Char) : Bool :=
  match s.toList with
  | [] => false
  | d :: _ => d = c

/-- Python dict.get(key): first binding wins (keys are unique in the
embedded dicts, mirroring Python dict keys). -/
def pyGet {κ α : Type} [DecidableEq κ] : List (κ × α) → κ → Option α
  | [], _ => Option.none
  | (k, v) :: rest, key => if k = key then some v else pyGet rest key

/-- Python dict.get(key, default). -/
def pyGetD {κ α : Type} [DecidableEq κ] (l : List (κ × α)) (key : κ) (d : α) : α :=
  (pyGet l key).getD d

/-- Python dict[key] = value on an association list: overwrite in place if
the key exists (keeping its position), else append. -/
def pySet {κ α : Type} [DecidableEq κ] : List (κ × α) → κ → α → List (κ × α)
  | [], key, v => [(key, v)]
  | (k, w) :: rest, key, v =>
    if k = key then (k, v) :: rest else (k, w) :: pySet rest key v

/-- Keys of an association list. -/
def dictKeys {κ α : Type} (l : List (κ × α)) : List κ := l.map Prod.fst

/-- Parse a list of decimal digit characters into a Nat. -/
def natOfDigits (cs : List Char) : Nat :=
  cs.foldl (fun acc c => acc * 10 + (c.toNat - 48)) 0

/-!  A miniature regular-expression engine covering exactly the constructs
used by the period-detection patterns of universal_parser.py.  The matcher
returns candidate match lengths in the priority order of the Python re
module (greedy quantifiers, left-biased alternation), so the head of the
list is the length the Python backtracking engine reports. -/

/-- Regular-expression shapes used by the period patterns. -/
inductive RE where
  | eps
  | lit (c : Char)
  | digit
  | wordc
  | space
  | upper
  | seq (a b : RE)
  | alt (a b : RE)
  | rep (a : RE) (lo : Nat) (hi : Option Nat)
deriving Repr

/-- Case-insensitive or case-sensitive character comparison. -/
def charEq (ci : Bool) (c d : Char) : Bool :=
  if ci then c.toLower = d.toLower else c = d

/-- All match lengths of a pattern at the head of the input, in Python
priority order (greedy first).  The fuel argument bounds recursion depth;
reFuel below always supplies enough. -/
def matchLens (ci : Bool) : Nat → RE → List Char → List Nat
  | 0, _, _ => []
  | _ + 1, RE.eps, _ => [0]
  | _ + 1, RE.lit c, cs =>
    match cs with
    | [] => []
    | d :: _ => if charEq ci c d then [1] else []
  | _ + 1, RE.digit, cs =>
    match cs with
    | [] => []
    | d :: _ => if d.isDigit then [1] else []
  | _ + 1, RE.wordc, cs =>
    match cs with
    | [] => []
    | d :: _ => if d.isAlphanum || d = '_' then [1] else []
  | _ + 1, RE.space, cs =>
    match cs with
    | [] => []
    | d :: _ => if d.isWhitespace then [1] else []
  | _ + 1, RE.upper, cs =>
    match cs with
    | [] => []
    | d :: _ => if d.isUpper then [1] else []
  | fuel + 1, RE.seq a b, cs =>
    (matchLens ci fuel a cs).flatMap
      (fun la => (matchLens ci fuel b (cs.drop la)).map (la + ·))
  | fuel + 1, RE.alt a b, cs =>
    matchLens ci fuel a cs ++ matchLens ci fuel b cs
  | fuel + 1, RE.rep a lo hi, cs =>
    match hi with
    | some 0 => if lo = 0 then [0] else []
    | _ =>
      let heads := (matchLens ci fuel a cs).filter (0 < ·)
      let more := heads.flatMap (fun la =>
        (matchLens ci fuel (RE.rep a (lo - 1) (hi.map (· - 1))) (cs.drop la)).map
          (la + ·))
      more ++ (if lo = 0 then [0] else [])

/-- Structural size of a pattern, used to compute sufficient fuel. -/
def reSize : RE → Nat
  | RE.eps | RE.lit _ | RE.digit | RE.wordc | RE.space | RE.upper => 1
  | RE.seq a b | RE.alt a b => reSize a + reSize b + 1
  | RE.rep a _ _ => reSize a + 1

/-- Fuel that always suffices for matchLens on the given input. -/
def reFuel (re : RE) (cs : List Char) : Nat :=
  (reSize re + 2) * (cs.length + 2)

/-- re.search: leftmost match position wins; returns the matched text. -/
def reSearchAux (ci : Bool) (re : RE) : List Char → Option (List Char)
  | [] =>
    match matchLens ci (reFuel re []) re [] with
    | [] => Option.none
    | l :: _ => some ([].take l)
  | c :: cs =>
    match matchLens ci (reFuel re (c :: cs)) re (c :: cs) with
    | l :: _ => some ((c :: cs).take l)
    | [] => reSearchAux ci re cs

/-- re.search over a string, returning match.group() as a string. -/
def reSearch (ci : Bool) (re : RE) (s : String) : Option String :=
  (reSearchAux ci re s.toList).map String.mk

/-- Literal word pattern. -/
def rlit (s : String) : RE :=
  s.toList.foldr (fun c acc => RE.seq (RE.lit c) acc) RE.eps

/-- Exactly n digits. -/
def rdigits (n : Nat) : RE := RE.rep RE.digit n (some n)

/-- Between m and n digits (greedy). -/
def rdigitRange (m n : Nat) : RE := RE.rep RE.digit m (some n)

/-- n word characters. -/
def rwords (n : Nat) : RE := RE.rep RE.wordc n (some n)

/-- Optional pattern (greedy). -/
def ropt (r : RE) : RE := RE.rep r 0 (some 1)

/-!  UniversalExcelParser.__init__: the ordered list of period regex
patterns, compiled with re.IGNORECASE.  Comments give the Python source
regex verbatim. -/

/-- Pattern Q(\d)\s?(\d\x7b4\x7d), e.g. Q1 2024. -/
def pat1 : RE := RE.seq (rlit "Q") (RE.seq RE.digit (RE.seq (ropt RE.space) (rdigits 4)))

/-- Pattern (\d)Q(\d\x7b2,4\x7d)[E]?, e.g. 1Q24, 1Q2024E. -/
def pat2 : RE := RE.seq RE.digit (RE.seq (rlit "Q") (RE.seq (rdigitRange 2 4) (ropt (rlit "E"))))

/-- Pattern FY(\d)Q(\d\x7b2,4\x7d)[E]?, e.g. FY1Q25, FY2Q24E. -/
def pat3 : RE :=
  RE.seq (rlit "FY") (RE.seq RE.digit (RE.seq (rlit "Q") (RE.seq (rdigitRange 2 4) (ropt (rlit "E")))))

/-- Pattern FY\s?(\d\x7b4\x7d)[E]?, e.g. FY 2024, FY2024E. -/
def pat4 : RE := RE.seq (rlit "FY") (RE.seq (ropt RE.space) (RE.seq (rdigits 4) (ropt (rlit "E"))))

/-- Pattern (\d\x7b4\x7d)[E]?, e.g. 2024, 2024E. -/
def pat5 : RE := RE.seq (rdigits 4) (ropt (rlit "E"))

/-- Pattern (\w\x7b3\x7d)\s?(\d\x7b4\x7d), e.g. Mar 2024. -/
def pat6 : RE := RE.seq (rwords 3) (RE.seq (ropt RE.space) (rdigits 4))

/-- Pattern (\d\x7b1,2\x7d)/(\d\x7b4\x7d), e.g. 3/2024. -/
def pat7 : RE := RE.seq (rdigitRange 1 2) (RE.seq (rlit "/") (rdigits 4))

/-- Pattern (\w\x7b3\x7d)-(\d\x7b2,4\x7d), e.g. Mar-24. -/
def pat8 : RE := RE.seq (rwords 3) (RE.seq (rlit "-") (rdigitRange 2 4))

/-- Pattern CY\s?(\d\x7b4\x7d)[E]?, e.g. CY2024. -/
def pat9 : RE := RE.seq (rlit "CY") (RE.seq (ropt RE.space) (RE.seq (rdigits 4) (ropt (rlit "E"))))

/-- Pattern (\d\x7b4\x7d)\s?(Actual|Estimate|Forecast|Budget). -/
def pat10 : RE :=
  RE.seq (rdigits 4) (RE.seq (ropt RE.space)
    (RE.alt (rlit "Actual") (RE.alt (rlit "Estimate") (RE.alt (rlit "Forecast") (rlit "Budget")))))

/-- Pattern FY(\d)Q(\d\x7b2\x7d)?[E]?, e.g. FY1Q. -/
def pat11 : RE :=
  RE.seq (rlit "FY") (RE.seq RE.digit (RE.seq (rlit "Q") (RE.seq (ropt (rdigits 2)) (ropt (rlit "E")))))

/-- Pattern (\d\x7b4\x7d)-(\d\x7b2\x7d), the 1998-53 format. -/
def pat12 : RE := RE.seq (rdigits 4) (RE.seq (rlit "-") (rdigits 2))

/-- self.period_patterns in source order. -/
def periodPatterns : List RE :=
  [pat1, pat2, pat3, pat4, pat5, pat6, pat7, pat8, pat9, pat10, pat11, pat12]

/-- re.match of ^\d\x7b3\x7d-\d\x7b3\x7d-\d\x7b4\x7d$: a phone-number shape. -/
def isPhoneShape (cs : List Char) : Bool :=
  match cs with
  | [a, b, c, h1, d, e, f, h2, g, h, i, j] =>
    [a, b, c, d, e, f, g, h, i, j].all Char.isDigit && h1 = '-' && h2 = '-'
  | _ => false

/-- re.match of ^\d\x7b10,\x7d$: ten or more digits and nothing else. -/
def isLongDigits (cs : List Char) : Bool :=
  10 ≤ cs.length && cs.all Char.isDigit

/-- A string consisting of exactly four digits (the ^\d\x7b4\x7d$ check
applied to a matched group). -/
def isFourDigits (cs : List Char) : Bool :=
  cs.length = 4 && cs.all Char.isDigit

/-- Inner loop of UniversalExcelParser._match_period_pattern: try the
patterns in order; a pattern whose whole match is a four-digit year
outside 1990..2050 is skipped (continue); any other match returns the
stripped original text. -/
def tryPeriodPatterns (text : String) : List RE → Option String
  | [] => Option.none
  | p :: rest =>
    match reSearch true p text with
    | some g =>
      let matchedText := pyStrip g
      if isFourDigits matchedText.toList then
        let year := natOfDigits matchedText.toList
        if year < 1990 || 2050 < year then tryPeriodPatterns text rest
        else some (pyStrip text)
      else some (pyStrip text)
    | Option.none => tryPeriodPatterns text rest

/-- UniversalExcelParser._match_period_pattern (universal_parser.py:428).
Returns the normalized period (the stripped original text) when the text
matches a period pattern, None otherwise. -/
def matchPeriodPattern (text : String) : Option String :=
  if isPhoneShape text.toList || isLongDigits text.toList then Option.none
  else if ["phone", "tel", "fax", "contact"].any
      (fun w => containsSub (lowerList text.toList) w.toList) then Option.none
  else if startsWithChar text '=' && ["FY", "Q", "RIGHT", "LEFT"].any
      (fun k => strContains text k) then Option.none
  else tryPeriodPatterns text periodPatterns

/-!  template_parser.py: TemplateBasedPeriodParser. -/

/-- Fuel-based worker for Python str.replace (all non-overlapping
occurrences, left to right). -/
def replaceAux : Nat → List Char → List Char → List Char → List Char
  | 0, s, _, _ => s
  | fuel + 1, s, old, new =>
    match s with
    | [] => []
    | c :: rest =>
      if !old.isEmpty && old.isPrefixOf s then
        new ++ replaceAux fuel (s.drop old.length) old new
      else c :: replaceAux fuel rest old new

/-- Python str.replace(old, new). -/
def pyReplace (s old new : String) : String :=
  String.mk (replaceAux (s.toList.length + 1) s.toList old.toList new.toList)

/-- Decimal digit character. -/
def digitChar (n : Nat) : Char := Char.ofNat (48 + n)

/-- Decimal rendering of a Nat (fuel-based so that it reduces in the
kernel, unlike toString). -/
def natToChars : Nat → Nat → List Char
  | 0, _ => []
  | fuel + 1, n =>
    if n < 10 then [digitChar n] else natToChars fuel (n / 10) ++ [digitChar (n % 10)]

/-- Python str(n) for a natural number. -/
def natToString (n : Nat) : String := String.mk (natToChars (n + 1) n)

/-- Python str(year)[-2:]. -/
def lastTwoDigits (year : Nat) : String :=
  let cs := natToChars (year + 1) year
  String.mk (cs.drop (cs.length - 2))

/-- template_parser.py PeriodTemplate dataclass. -/
structure PeriodTemplate where
  name : String
  pattern : String
  example' : String
  type : String
deriving DecidableEq, BEq, Repr

/-- Full anchored match (re.match with a trailing dollar anchor). -/
def reFullMatch (ci : Bool) (re : RE) (s : String) : Bool :=
  (matchLens ci (reFuel re s.toList) re s.toList).contains s.toList.length

/-- Character class [1-4]. -/
def r14 : RE := RE.alt (RE.lit '1') (RE.alt (RE.lit '2') (RE.alt (RE.lit '3') (RE.lit '4')))

/-- Anchored pattern FY\d\x7b4\x7dE?. -/
def revRe1 : RE := RE.seq (rlit "FY") (RE.seq (rdigits 4) (ropt (RE.lit 'E')))

/-- Anchored pattern FY[1-4]Q\d\x7b2\x7dE?. -/
def revRe2 : RE :=
  RE.seq (rlit "FY") (RE.seq r14 (RE.seq (RE.lit 'Q') (RE.seq (rdigits 2) (ropt (RE.lit 'E')))))

/-- Anchored pattern \d\x7b4\x7dE?. -/
def revRe3 : RE := RE.seq (rdigits 4) (ropt (RE.lit 'E'))

/-- Anchored pattern [1-4]Q\d\x7b2\x7dE?. -/
def revRe4 : RE := RE.seq r14 (RE.seq (RE.lit 'Q') (RE.seq (rdigits 2) (ropt (RE.lit 'E'))))

/-- Anchored pattern Q[1-4]\s+\d\x7b4\x7d. -/
def revRe5 : RE :=
  RE.seq (RE.lit 'Q') (RE.seq r14 (RE.seq (RE.rep RE.space 1 Option.none) (rdigits 4)))

/-- Anchored pattern \d\x7b4\x7d-\d\x7b2\x7d. -/
def revRe6 : RE := RE.seq (rdigits 4) (RE.seq (RE.lit '-') (rdigits 2))

/-- Python str.endswith('E') (case-sensitive). -/
def endsWithE (s : String) : Bool :=
  match s.toList.getLast? with
  | some c => c = 'E'
  | Option.none => false

/-- TemplateBasedPeriodParser._reverse_engineer_template
(template_parser.py:53): convert one observed period into a template; the
optional [E] suffix marker is added only when the observed period itself
ends with E. -/
def reverseEngineerTemplate (period : String) : Option PeriodTemplate :=
  let p := pyStrip period
  if reFullMatch false revRe1 p then
    some ⟨"Annual FY Format",
      if endsWithE p then "FY\x7bYYYY\x7d[E]" else "FY\x7bYYYY\x7d", p, "annual"⟩
  else if reFullMatch false revRe2 p then
    some ⟨"Quarterly FY Format",
      if endsWithE p then "FY\x7bQ\x7dQ\x7bYY\x7d[E]" else "FY\x7bQ\x7dQ\x7bYY\x7d", p, "quarterly"⟩
  else if reFullMatch false revRe3 p then
    some ⟨"Simple Annual Format",
      if endsWithE p then "\x7bYYYY\x7d[E]" else "\x7bYYYY\x7d", p, "annual"⟩
  else if reFullMatch false revRe4 p then
    some ⟨"Simple Quarterly Format",
      if endsWithE p then "\x7bQ\x7dQ\x7bYY\x7d[E]" else "\x7bQ\x7dQ\x7bYY\x7d", p, "quarterly"⟩
  else if reFullMatch false revRe5 p then
    some ⟨"Quarterly Q Format", "Q\x7bQ\x7d \x7bYYYY\x7d", p, "quarterly"⟩
  else if reFullMatch false revRe6 p then
    some ⟨"Year-Week Format", "\x7bYYYY\x7d-\x7bWW\x7d", p, "annual"⟩
  else Option.none

/-- TemplateBasedPeriodParser.suggest_templates_from_samples
(template_parser.py:33): reverse-engineer each sample, keeping first
occurrences of distinct templates. -/
def suggestTemplatesFromSamples (samplePeriods : List String) : List PeriodTemplate :=
  samplePeriods.foldl (fun suggested period =>
    match reverseEngineerTemplate period with
    | some t => if suggested.contains t then suggested else suggested ++ [t]
    | Option.none => suggested) []

/-- TemplateBasedPeriodParser._expand_optional_suffixes
(template_parser.py:187). -/
def expandOptionalSuffixes (pattern : String) : List String :=
  if strContains pattern "[E]" then
    let base := pyReplace pattern "[E]" ""
    [base, base ++ "E"]
  else if strContains pattern "[Actual]" then
    let base := pyReplace pattern "[Actual]" ""
    [base, base ++ " Actual"]
  else [pattern]

/-- TemplateBasedPeriodParser._expand_template_for_year
(template_parser.py:163). -/
def expandTemplateForYear (pattern : String) (year : Nat) (yearDigits : Nat) : List String :=
  let yearStr := if yearDigits = 4 then natToString year else lastTwoDigits year
  let basePattern := pyReplace (pyReplace pattern "\x7bYYYY\x7d" (natToString year))
    "\x7bYY\x7d" yearStr
  let periods :=
    if strContains basePattern "\x7bQ\x7d" then
      [1, 2, 3, 4].flatMap (fun q =>
        expandOptionalSuffixes (pyReplace basePattern "\x7bQ\x7d" (natToString q)))
    else expandOptionalSuffixes basePattern
  if strContains basePattern "\x7bWW\x7d" then [pyReplace basePattern "\x7bWW\x7d" "53"]
  else periods

/-- Python range(start, stop) over natural numbers. -/
def pyRange (start stop : Nat) : List Nat := List.range' start (stop - start)

/-- TemplateBasedPeriodParser.generate_periods_from_templates
(template_parser.py:129), year_range default (1990, 2030).  The result
models the Python dict keyed by template name: templates sharing a name
overwrite the earlier entry value while keeping its position. -/
def generatePeriodsFromTemplates (templates : List PeriodTemplate)
    (yearRange : Nat × Nat) : List (String × List String) :=
  templates.foldl (fun generated t =>
    let periods :=
      if strContains t.pattern "\x7bYYYY\x7d" then
        (pyRange yearRange.1 (yearRange.2 + 1)).flatMap
          (fun y => expandTemplateForYear t.pattern y 4)
      else if strContains t.pattern "\x7bYY\x7d" then
        (pyRange yearRange.1 (yearRange.2 + 1)).flatMap
          (fun y => expandTemplateForYear t.pattern y 2)
      else []
    pySet generated t.name periods) []

/-- The default year range (1990, 2030) of generate_periods_from_templates. -/
def defaultYearRange : Nat × Nat := (1990, 2030)

/-!  Shared string/number rendering helpers placed after natToString. -/

/-- Python str(n) for an integer. -/
def intToString (n : Int) : String :=
  if n < 0 then "-" ++ natToString n.natAbs else natToString n.toNat

/-- Python str() of a cell value.  CPython prints an integral float with a
trailing ".0"; non-integral rationals (absent from the embedded runs) are
rendered as fractions. -/
def CellVal.pyStr : CellVal → String
  | CellVal.none => "None"
  | CellVal.str s => s
  | CellVal.int n => intToString n
  | CellVal.float q =>
    if q.den = 1 then intToString q.num ++ ".0"
    else intToString q.num ++ "/" ++ natToString q.den

/-- Keep the first occurrence of each element (models list(set(x)) up to
the unspecified iteration order of a Python set; callers only rely on
membership). -/
def dedupFirst {α : Type} [DecidableEq α] (l : List α) : List α :=
  l.foldl (fun acc x => if x ∈ acc then acc else acc ++ [x]) []

/-- Insert into a sorted list after all elements le-below-or-equal, giving
a stable insertion sort. -/
def insertSorted {α : Type} (le : α → α → Bool) (x : α) : List α → List α
  | [] => [x]
  | y :: ys => if le y x then y :: insertSorted le x ys else x :: y :: ys

/-- Stable sort (models Python list.sort with a key function, which is a
stable ascending sort). -/
def pySortBy {α : Type} (le : α → α → Bool) (l : List α) : List α :=
  l.foldl (fun acc x => insertSorted le x acc) []

/-- re.search returning the matched text and the remainder after it. -/
def reSearchFrom (ci : Bool) (re : RE) : List Char → Option (List Char × List Char)
  | [] =>
    match matchLens ci (reFuel re []) re [] with
    | [] => Option.none
    | _ :: _ => some ([], [])
  | c :: cs =>
    match matchLens ci (reFuel re (c :: cs)) re (c :: cs) with
    | l :: _ => some ((c :: cs).take l, (c :: cs).drop l)
    | [] => reSearchFrom ci re cs

/-- Fuel-based worker for re.findall (non-overlapping, left to right). -/
def findAllAux (ci : Bool) (re : RE) : Nat → List Char → List String
  | 0, _ => []
  | fuel + 1, cs =>
    match reSearchFrom ci re cs with
    | some (m, rest) =>
      if m.isEmpty then [] else String.mk m :: findAllAux ci re fuel rest
    | Option.none => []

/-- re.findall over a string (the embedded pattern has no capturing
groups, so findall yields the full match texts). -/
def reFindAll (ci : Bool) (re : RE) (s : String) : List String :=
  findAllAux ci re (s.toList.length + 1) s.toList

/-!  The spreadsheet model.  A Sheet carries the raw openpyxl view
(data_only=False: formula cells hold their formula text and have
data_type f) and the cached-calculated view (data_only=True) that the
parser re-opens from the same file; calcLoadOk models whether that
data_only load succeeds. -/

/-- One cell of the raw (data_only=False) view. -/
structure Cell where
  value : CellVal
  isFormula : Bool
deriving DecidableEq, Repr

/-- A worksheet, with 1-based Excel row/column coordinates. -/
structure Sheet where
  title : String
  maxRow : Nat
  maxCol : Nat
  cell : Nat → Nat → Cell
  calcCell : Nat → Nat → CellVal
  calcLoadOk : Bool

/-!  excel_utils.py. -/

/-- One counted step of excel_utils.looks_like_period_header: does this
cell look period-like (substring tests are case-sensitive, as in the
source)? -/
def periodIndicator (v : CellVal) : Bool :=
  if v.truthy then
    let cellStr := v.pyStr
    if ["Q", "20", "19", "1Q", "2Q", "3Q", "4Q"].any (fun p => strContains cellStr p) then
      true
    else
      cellStr.toList.length = 4 && cellStr.toList.all Char.isDigit &&
        (["19", "20"].any (fun p => p.toList.isPrefixOf cellStr.toList))
  else false

/-- excel_utils.looks_like_period_header (excel_utils.py:251): at least 3
period-like cells outside the first column. -/
def looksLikePeriodHeader (rowData : List CellVal) : Bool :=
  3 ≤ ((rowData.drop 1).filter periodIndicator).length

/-- The values of one worksheet row, as sheet[row_idx] yields them. -/
def rowValues (s : Sheet) (r : Nat) : List CellVal :=
  (pyRange 1 (s.maxCol + 1)).map (fun c => (s.cell r c).value)

/-- The rows scanned by find_period_header_row: range(1, min(11, max_row + 1)). -/
def headerScanRows (s : Sheet) : List Nat := pyRange 1 (min 11 (s.maxRow + 1))

/-- Error message raised when no header row is found. -/
def noHeaderRowMsg (s : Sheet) : String :=
  "No period header row found in sheet: " ++ s.title

/-- Loop of excel_utils.find_period_header_row. -/
def findHeaderAux (s : Sheet) : List Nat → Except String Nat
  | [] => Except.error (noHeaderRowMsg s)
  | r :: rest =>
    if looksLikePeriodHeader (rowValues s r) then Except.ok r else findHeaderAux s rest

/-- excel_utils.find_period_header_row (excel_utils.py:234): scan the
first 10 rows top-down; raise ValueError when none qualifies. -/
def findPeriodHeaderRow (s : Sheet) : Except String Nat :=
  findHeaderAux s (headerScanRows s)

/-!  universal_parser.py period detection. -/

/-- A detection state: periods in discovery order plus the
period-to-column dict. -/
abbrev DetectState := List String × List (String × Nat)

/-- One candidate cell of _detect_periods_alternative: record a fresh
nonempty period. -/
def recordPeriod (st : DetectState) (p : String) (col : Nat) : DetectState :=
  if p ≠ "" ∧ p ∉ st.1 then (st.1 ++ [p], st.2 ++ [(p, col)]) else st

/-- UniversalExcelParser._detect_periods_alternative
(universal_parser.py:287): scan rows 1..10 of the data_only view in
row-major order; any load exception yields an empty result. -/
def altDetect (s : Sheet) : DetectState :=
  if s.calcLoadOk then
    (pyRange 1 11).foldl (fun st r =>
      (pyRange 1 (s.maxCol + 1)).foldl (fun st c =>
        match s.calcCell r c with
        | CellVal.str v =>
          if v ≠ "" then
            match matchPeriodPattern (pyStrip v) with
            | some p => recordPeriod st p c
            | Option.none => st
          else st
        | _ => st) st) ([], [])
  else ([], [])

/-- Search for the quoted "FY(\d)Q" fragment inside a formula text
(universal_parser.py:793). -/
def searchFYQ : List Char → Option Char
  | [] => Option.none
  | c :: rest =>
    match c :: rest with
    | '"' :: 'F' :: 'Y' :: d :: 'Q' :: '"' :: _ =>
      if d.isDigit then some d else searchFYQ rest
    | _ => searchFYQ rest

/-- UniversalExcelParser._get_cell_display_value
(universal_parser.py:762): formulas are looked up in the data_only view;
failing that, a quoted FY-quarter fragment is guessed as FY..Q25. -/
def getCellDisplayValue (s : Sheet) (r c : Nat) (cellValue : String) : String :=
  if !startsWithChar cellValue '=' then cellValue
  else
    let viaCalc : Option String :=
      if s.calcLoadOk then
        match s.calcCell r c with
        | CellVal.none => Option.none
        | v => some v.pyStr
      else Option.none
    match viaCalc with
    | some cv => cv
    | Option.none =>
      if strContains cellValue "FY" && strContains cellValue "Q" &&
          strContains cellValue "RIGHT" then
        match searchFYQ cellValue.toList with
        | some q => "FY" ++ String.mk [q] ++ "Q25"
        | Option.none => cellValue
      else cellValue

/-- UniversalExcelParser._detect_periods (universal_parser.py:208): the
standard scan over the raw view, evaluating formula headers through the
data_only view; raises when no cell at all was processed (the
RuntimeError of line 273, re-raised wrapped by the scan handler at line
279). -/
def detectPeriodsStd (s : Sheet) : Except String DetectState :=
  let rows := pyRange 1 (min 11 (s.maxRow + 1))
  let cols := pyRange 1 (s.maxCol + 1)
  let st := rows.foldl (fun st r =>
    cols.foldl (fun st c =>
      match (s.cell r c).value with
      | CellVal.str v =>
        if v ≠ "" then
          match matchPeriodPattern (pyStrip (getCellDisplayValue s r c v)) with
          | some p => recordPeriod st p c
          | Option.none => st
        else st
      | _ => st) st) ([], [])
  if rows.length * cols.length = 0 then
    Except.error ("Failed to scan sheet " ++ s.title ++
      " for periods: No cells were processed in sheet " ++ s.title ++
      " - this indicates a serious parsing error")
  else Except.ok st

/-- Merge loop of _detect_periods_with_templates (universal_parser.py:383):
append standard periods missing from the alternative result, with their
standard column (dict .get default 0). -/
def mergeDetected (alt : DetectState) (std : DetectState) : DetectState :=
  std.1.foldl (fun st p =>
    if p ∈ st.1 then st else (st.1 ++ [p], st.2 ++ [(p, pyGetD std.2 p 0)])) alt

/-- TemplateBasedPeriodParser.find_periods_using_templates
(template_parser.py:199): for each template name, the cells of the given
header rows whose stripped text is one of the generated candidates,
deduplicated and sorted by column. -/
def findPeriodsUsingTemplates (s : Sheet) (templates : List PeriodTemplate)
    (headerRows : List Nat) : List (String × List (String × Nat)) :=
  let templatePeriods := generatePeriodsFromTemplates templates defaultYearRange
  templatePeriods.foldl (fun found tp =>
    let ms := headerRows.foldl (fun ms r =>
      (pyRange 1 (s.maxCol + 1)).foldl (fun ms c =>
        match (s.cell r c).value with
        | CellVal.str v =>
          if v ≠ "" then
            let v' := pyStrip v
            if tp.2.contains v' then ms ++ [(v', c)] else ms
          else ms
        | _ => ms) ms) []
    if ms.isEmpty then found
    else found ++ [(tp.1, pySortBy (fun a b => a.2 ≤ b.2) (dedupFirst ms))]) []

/-- Enhancement loop of _detect_periods_with_templates
(universal_parser.py:412): add template-found periods not yet present. -/
def enhanceDetected (merged : DetectState)
    (found : List (String × List (String × Nat))) : DetectState :=
  found.foldl (fun st tms =>
    tms.2.foldl (fun st pc =>
      if pc.1 ∈ st.1 then st else (st.1 ++ [pc.1], st.2 ++ [(pc.1, pc.2)])) st) merged

/-- Ascending comparison on recorded columns (the sort key
enhanced_columns.get(p, 0) of universal_parser.py:421). -/
def colLE (cols : List (String × Nat)) (a b : String) : Bool :=
  pyGetD cols a 0 ≤ pyGetD cols b 0

/-- UniversalExcelParser._detect_periods_with_templates
(universal_parser.py:329).  userTemplates models the user_templates
argument (None/empty is falsy). -/
def detectPeriodsWithTemplates (s : Sheet) (userTemplates : List PeriodTemplate) :
    Except String DetectState :=
  let alt := altDetect s
  if 50 ≤ alt.1.length then Except.ok alt
  else
    match detectPeriodsStd s with
    | Except.error e => Except.error e
    | Except.ok std =>
      let merged := mergeDetected alt std
      if merged.1.length < 70 then
        let templates :=
          if userTemplates.isEmpty then suggestTemplatesFromSamples merged.1
          else userTemplates
        if templates.isEmpty then Except.ok merged
        else
          let headerRows := pyRange 1 (min 11 (s.maxRow + 1))
          let found := findPeriodsUsingTemplates s templates headerRows
          let enhanced := enhanceDetected merged found
          Except.ok (pySortBy (colLE enhanced.2) enhanced.1, enhanced.2)
      else Except.ok merged

/-!  universal_parser.py line-item extraction and the FinancialStatement
data model. -/

/-- universal_parser.py LineItem dataclass.  values maps period names to
floats; formula keeps the raw cell value of the first truthy formula. -/
structure LineItem where
  name : String
  row_number : Nat
  values : List (String × ℚ)
  formula : Option CellVal
  dependencies : List String
deriving DecidableEq, Repr

/-- universal_parser.py FinancialStatement dataclass.  line_items is the
row_number -> LineItem dict; the parser always uses int keys. -/
structure FinancialStatement where
  sheet_name : String
  periods : List String
  line_items : List (PyKey × LineItem)
  period_columns : List (String × Nat)
deriving DecidableEq, Repr

/-- The cell-reference pattern of _extract_formula_dependencies
(universal_parser.py:588): (?:\w+!)?(?:\$)?[A-Z]+(?:\$)?[0-9]+
(?::\$?[A-Z]+\$?[0-9]+)? . -/
def cellRefRE : RE :=
  RE.seq (ropt (RE.seq (RE.rep RE.wordc 1 Option.none) (RE.lit '!')))
    (RE.seq (ropt (RE.lit '$'))
      (RE.seq (RE.rep RE.upper 1 Option.none)
        (RE.seq (ropt (RE.lit '$'))
          (RE.seq (RE.rep RE.digit 1 Option.none)
            (ropt (RE.seq (RE.lit ':')
              (RE.seq (ropt (RE.lit '$'))
                (RE.seq (RE.rep RE.upper 1 Option.none)
                  (RE.seq (ropt (RE.lit '$')) (RE.rep RE.digit 1 Option.none))))))))))

/-- UniversalExcelParser._extract_formula_dependencies
(universal_parser.py:582): findall the cell references, then list(set())
deduplication (modelled keeping first occurrences; callers only use
membership and emptiness). -/
def extractFormulaDependencies (formula : String) : List String :=
  if formula = "" then []
  else dedupFirst (reFindAll false cellRefRE formula)

/-- Value/formula capture for one row of _extract_line_items
(universal_parser.py:539): for each period column, a formula cell records
the formula and its cached calculated value (0.0 when the data_only load
fails, nothing when the cached value is non-numeric); a numeric cell
records its value. -/
def rvfStep (s : Sheet) (row : Nat) (periodColumns : List (String × Nat))
    (st : List (String × ℚ) × List (String × CellVal)) (period : String) :
    List (String × ℚ) × List (String × CellVal) :=
  match pyGet periodColumns period with
  | Option.none => st
  | some colNum =>
    if colNum = 0 then st
    else
      let cell := s.cell row colNum
      if cell.isFormula then
        let fmls := pySet st.2 period cell.value
        if s.calcLoadOk then
          match s.calcCell row colNum with
          | CellVal.int n => (pySet st.1 period (n : ℚ), fmls)
          | CellVal.float q => (pySet st.1 period q, fmls)
          | _ => (st.1, fmls)
        else (pySet st.1 period 0, fmls)
      else
        match cell.value with
        | CellVal.int n => (pySet st.1 period (n : ℚ), st.2)
        | CellVal.float q => (pySet st.1 period q, st.2)
        | _ => st

/-- The per-period fold of the value capture. -/
def rowValuesFormulas (s : Sheet) (row : Nat) (periods : List String)
    (periodColumns : List (String × Nat)) : List (String × ℚ) × List (String × CellVal) :=
  periods.foldl (rvfStep s row periodColumns) ([], [])

/-- Label scan of _extract_line_items (universal_parser.py:527): first
non-blank string in columns 1..5 that does not itself look like a
period. -/
def findLineItemNameAux (s : Sheet) (row : Nat) : List Nat → Option String
  | [] => Option.none
  | c :: rest =>
    match (s.cell row c).value with
    | CellVal.str v =>
      if v ≠ "" ∧ pyStrip v ≠ "" then
        if matchPeriodPattern v = Option.none then some (pyStrip v)
        else findLineItemNameAux s row rest
      else findLineItemNameAux s row rest
    | _ => findLineItemNameAux s row rest

/-- Candidate label of a row (columns range(1, min(6, max_column + 1))). -/
def findLineItemName (s : Sheet) (row : Nat) : Option String :=
  findLineItemNameAux s row (pyRange 1 (min 6 (s.maxCol + 1)))

/-- Start row of line-item extraction (universal_parser.py:516): one past
the detected header row, silently defaulting to row 6 when header
detection raised. -/
def extractionStartRow (s : Sheet) : Nat :=
  match findPeriodHeaderRow s with
  | Except.ok r => r + 1
  | Except.error _ => 6

/-- The negligible-magnitude threshold 0.001 of universal_parser.py:566
(the float literal modelled as the rational it denotes). -/
def meaningfulEps : ℚ := mkRat 1 1000

/-- Python abs() on a rational (spelled out so that it reduces in the
kernel). -/
def pyAbs (q : ℚ) : ℚ := if q < 0 then -q else q

/-- Keep judgment of one row (universal_parser.py:566): some value above
the epsilon, or any formula. -/
def hasMeaningfulData (vals : List (String × ℚ)) (fmls : List (String × CellVal)) : Bool :=
  (!vals.isEmpty && vals.any (fun pv => meaningfulEps < pyAbs pv.2)) || !fmls.isEmpty

/-- Build the LineItem stored for a kept row (universal_parser.py:570):
main formula is the first truthy one in period order; dependencies are
extracted from it when it is a string. -/
def buildLineItem (name : String) (row : Nat) (vals : List (String × ℚ))
    (fmls : List (String × CellVal)) : LineItem :=
  let mainFormula := (fmls.map Prod.snd).find? CellVal.truthy
  { name := name, row_number := row, values := vals, formula := mainFormula,
    dependencies :=
      match mainFormula with
      | some (CellVal.str f) => extractFormulaDependencies f
      | _ => [] }

/-- UniversalExcelParser._extract_line_items (universal_parser.py:513). -/
def eliStep (s : Sheet) (periods : List String) (periodColumns : List (String × Nat))
    (items : List (PyKey × LineItem)) (row : Nat) : List (PyKey × LineItem) :=
  match findLineItemName s row with
  | Option.none => items
  | some name =>
    let vf := rowValuesFormulas s row periods periodColumns
    if hasMeaningfulData vf.1 vf.2 then
      items ++ [(PyKey.int row, buildLineItem name row vf.1 vf.2)]
    else items

/-- UniversalExcelParser._extract_line_items (universal_parser.py:513). -/
def extractLineItems (s : Sheet) (periods : List String)
    (periodColumns : List (String × Nat)) : List (PyKey × LineItem) :=
  (pyRange (extractionStartRow s) (s.maxRow + 1)).foldl (eliStep s periods periodColumns) []

/-- UniversalExcelParser._parse_sheet (universal_parser.py:190): template
detection then extraction (user_templates is None on every call path). -/
def parseSheet (s : Sheet) (sheetName : String) : Except String FinancialStatement :=
  match detectPeriodsWithTemplates s [] with
  | Except.error e => Except.error e
  | Except.ok det =>
    Except.ok ⟨sheetName, det.1, extractLineItems s det.1 det.2, det.2⟩

/-!  UniversalExcelParser.match_line_items (universal_parser.py:593).
The two passes iterate over line_items.keys(): int row numbers on every
statement the parser builds.  The fuzzy pass calls .lower() on those
keys, which raises AttributeError on an int; pyLower models that. -/

/-- The AttributeError raised by int.lower(). -/
def attrLowerErr : String := "AttributeError: int object has no attribute lower"

/-- key.lower(): succeeds on str keys, raises on int keys. -/
def pyLower : PyKey → Except String String
  | PyKey.str s => Except.ok (String.mk (lowerList s.toList))
  | PyKey.int _ => Except.error attrLowerErr

/-- Weighted Levenshtein distance with substitution cost 2, the distance
underlying fuzz.ratio. -/
def lev2 : List Char → List Char → Nat
  | [], ys => ys.length
  | xs, [] => xs.length
  | x :: xs, y :: ys =>
    if x = y then lev2 xs ys
    else min (1 + lev2 xs (y :: ys)) (min (1 + lev2 (x :: xs) ys) (2 + lev2 xs ys))
termination_by xs ys => xs.length + ys.length

/-- fuzzywuzzy fuzz.ratio: 100 * (lensum - distance) / lensum, rounded to
an int (rounding of exact halves differs from CPython bankers rounding;
no theorem depends on ratio values). -/
def fuzzRatio (a b : String) : Nat :=
  let lensum := a.toList.length + b.toList.length
  if lensum = 0 then 100
  else (200 * (lensum - lev2 a.toList b.toList) + lensum) / (2 * lensum)

/-- The fixed fuzzy-match threshold similarity_threshold = 85. -/
def similarityThreshold : Nat := 85

/-- First pass of match_line_items: exact key matches, removing matched
keys from the new pool during iteration and from the old pool after it.
Returns (matches, remaining old, remaining new). -/
def exactLoop : List PyKey → List PyKey → List (PyKey × PyKey) × List PyKey × List PyKey
  | [], news => ([], [], news)
  | o :: olds, news =>
    if o ∈ news then
      let r := exactLoop olds (news.erase o)
      ((o, o) :: r.1, r.2.1, r.2.2)
    else
      let r := exactLoop olds news
      (r.1, o :: r.2.1, r.2.2)

/-- Inner loop of the fuzzy pass: best-scoring new key above the
threshold (strictly improving, so the first of a tie wins). -/
def fuzzyBest (o : PyKey) : List PyKey → Option PyKey → Nat → Except String (Option PyKey)
  | [], best, _ => Except.ok best
  | n :: rest, best, bestScore =>
    match pyLower o with
    | Except.error e => Except.error e
    | Except.ok ol =>
      match pyLower n with
      | Except.error e => Except.error e
      | Except.ok nl =>
        let score := fuzzRatio ol nl
        if bestScore < score ∧ similarityThreshold ≤ score then
          fuzzyBest o rest (some n) score
        else fuzzyBest o rest best bestScore

/-- Outer loop of the fuzzy pass over the remaining old keys. -/
def fuzzyLoop : List PyKey → List PyKey → List (PyKey × PyKey) →
    Except String (List (PyKey × PyKey))
  | [], _, ms => Except.ok ms
  | o :: olds, news, ms =>
    match fuzzyBest o news Option.none 0 with
    | Except.error e => Except.error e
    | Except.ok (some b) => fuzzyLoop olds (news.erase b) (ms ++ [(o, b)])
    | Except.ok Option.none => fuzzyLoop olds news ms

/-- UniversalExcelParser.match_line_items (universal_parser.py:593):
exact pass on the line_items dict keys, then fuzzy pass on the
remainder. -/
def matchLineItems (old new : FinancialStatement) :
    Except String (List (PyKey × PyKey)) :=
  let e := exactLoop (dictKeys old.line_items) (dictKeys new.line_items)
  fuzzyLoop e.2.1 e.2.2 e.1

/-!  UniversalExcelParser.calculate_variances (universal_parser.py:636). -/

/-- Truthiness of an optional formula value. -/
def optTruthy : Option CellVal → Bool
  | some v => v.truthy
  | Option.none => false

/-- The per-item dict built by calculate_variances. -/
structure VarianceRecord where
  line_item_name : PyKey
  matched_with : Option PyKey
  old_value : ℚ
  new_value : ℚ
  absolute_variance : ℚ
  percentage_variance : ℚ
  has_formula : Bool
  drill_down_available : Bool
deriving DecidableEq, Repr

/-- One variance record (universal_parser.py:647): absolute variance is
new - old; percentage variance divides by the old value only when it is
nonzero and is 0 otherwise. -/
def mkVarianceRecord (oldName newName : PyKey) (oldItem newItem : LineItem)
    (period : String) : VarianceRecord :=
  let oldValue := pyGetD oldItem.values period 0
  let newValue := pyGetD newItem.values period 0
  let absoluteVariance := newValue - oldValue
  { line_item_name := oldName,
    matched_with := if oldName ≠ newName then some newName else Option.none,
    old_value := oldValue,
    new_value := newValue,
    absolute_variance := absoluteVariance,
    percentage_variance := if oldValue ≠ 0 then absoluteVariance / oldValue * 100 else 0,
    has_formula := optTruthy oldItem.formula || optTruthy newItem.formula,
    drill_down_available :=
      0 < oldItem.dependencies.length || 0 < newItem.dependencies.length }

/-- UniversalExcelParser.calculate_variances (universal_parser.py:636):
pairs whose two items are found produce a record keyed by the old name;
others are skipped. -/
def cvStep (old new : FinancialStatement) (period : String)
    (vs : List (PyKey × VarianceRecord)) (m : PyKey × PyKey) :
    List (PyKey × VarianceRecord) :=
  match pyGet old.line_items m.1, pyGet new.line_items m.2 with
  | some oi, some ni => pySet vs m.1 (mkVarianceRecord m.1 m.2 oi ni period)
  | _, _ => vs

/-- The fold over matched pairs building the variances dict. -/
def calculateVariances (old new : FinancialStatement) (period : String)
    (pairs : List (PyKey × PyKey)) : List (PyKey × VarianceRecord) :=
  pairs.foldl (cvStep old new period) []

/-!  parse_financial_statements (universal_parser.py:78), over an already
loaded workbook (the file-system and workbook-load failures of lines
89-115 are whole-call fatal and outside the per-sheet accumulation the
claims address). -/

/-- A loaded workbook: sheet names to worksheets.  wb.sheetnames is its
key list, wb[name] the lookup. -/
abbrev Workbook := List (String × Sheet)

/-- One iteration's fetch and parse, _parse_sheet(wb[sheet_name],
sheet_name) of universal_parser.py:141; a failed lookup would raise
KeyError into the same per-sheet handler, though the up-front
validation makes that unreachable. -/
def wbParseSheet (wb : Workbook) (sheetName : String) :
    Except String FinancialStatement :=
  match pyGet wb sheetName with
  | some s => parseSheet s sheetName
  | Option.none => Except.error ("KeyError: " ++ sheetName)

/-- The per-sheet loop of parse_financial_statements (lines 138-160):
successes accumulate into the statements dict (acc.1), failures into
parsing_errors (acc.2), which the call logs but never returns. -/
def accParses (parse : String → Except String FinancialStatement)
    (acc : List (String × FinancialStatement) × List String) :
    List (String × String) → List (String × FinancialStatement) × List String
  | [] => acc
  | ts :: rest =>
    match parse ts.2 with
    | Except.ok st => accParses parse (pySet acc.1 ts.1 st, acc.2) rest
    | Except.error e =>
      accParses parse
        (acc.1, acc.2 ++ ["Failed to parse sheet " ++ ts.2 ++ " for " ++ ts.1 ++ ": " ++ e])
        rest

/-- UniversalExcelParser.parse_financial_statements
(universal_parser.py:78): empty selection and missing sheets raise
up-front; per-sheet failures accumulate into parsing_errors without
aborting later sheets; the call raises only when no sheet parsed, and
on success returns only the statements dict (line 173) - parsing_errors
is logged at lines 158 and 169 but is not part of the return value. -/
def parseFinancialStatements (wb : Workbook)
    (selectedSheets : List (String × String)) :
    Except String (List (String × FinancialStatement)) :=
  if selectedSheets.isEmpty then Except.error "No sheets selected for parsing"
  else if !(selectedSheets.filter (fun ts => !(dictKeys wb).contains ts.2)).isEmpty then
    Except.error "Missing sheets"
  else
    let r := accParses (wbParseSheet wb) ([], []) selectedSheets
    if r.1.isEmpty then Except.error "Failed to parse any sheets"
    else Except.ok r.1

/-- The parsing_errors list as accumulated by the loop: the messages
logger.error records at universal_parser.py:158, logged again at line
169; they never reach the caller. -/
def loggedParseErrors (wb : Workbook) (selected : List (String × String)) :
    List String :=
  (accParses (wbParseSheet wb) ([], []) selected).2

/-!  Drill-down (universal_parser.py:666).  The recursive tree build and
attribution live in services/formula_analyzer.py, which is absent from
the sources; they enter as parameters, and their result shapes are
modelled from the spec. -/

/-- Modelled from the spec: FormulaComponent of the missing
formula_analyzer.py, a drill-down tree node. -/
structure FormulaComponent where
  name : String
  cell_reference : String
  value : ℚ
  is_leaf : Bool
  formula : Option String
  children : List FormulaComponent

/-- Modelled from the spec: one entry of DrillDownResult.components. -/
structure DrillDownComponent where
  name : String
  cell_reference : String
  value : ℚ
  variance_contribution : ℚ
  is_leaf : Bool
  has_formula : Bool

/-- Modelled from the spec: DrillDownResult of the missing
formula_analyzer.py. -/
structure DrillDownResult where
  source_item : String
  source_value : ℚ
  total_explained : ℚ
  unexplained_variance : ℚ
  drill_down_path : List String
  components : List DrillDownComponent

/-- UniversalExcelParser._number_to_column_letter
(universal_parser.py:753), fuel-based for kernel reduction. -/
def ntclAux : Nat → Nat → String
  | 0, _ => ""
  | fuel + 1, n =>
    if n = 0 then ""
    else ntclAux fuel ((n - 1) / 26) ++ String.mk [Char.ofNat ((n - 1) % 26 + 65)]

/-- Convert a 1-based column number to Excel column letters. -/
def numberToColumnLetter (n : Nat) : String := ntclAux (n + 1) n

/-- UniversalExcelParser._get_column_from_period
(universal_parser.py:746): the letters of the recorded column, or the
fallback "A" when the period is not recorded. -/
def getColumnFromPeriod (st : FinancialStatement) (period : String) : String :=
  match pyGet st.period_columns period with
  | some colNum => numberToColumnLetter colNum
  | Option.none => "A"

/-- Cell address targeted by drill-down for a statement, period and row
(universal_parser.py:715). -/
def drillAddress (st : FinancialStatement) (period : String) (row : Nat) : String :=
  getColumnFromPeriod st period ++ natToString row

/-- UniversalExcelParser.drill_down_variance (universal_parser.py:666).
oldParse/newParse are the parse_financial_statements results on the two
files with selected_sheets = target -> sheet_name; buildTree abstracts
formula_analyzer.build_dependency_tree (the Bool selects old or new
file); attribute abstracts calculate_variance_attribution.  Every failure
path of the Python function, including exceptions caught by its blanket
except, returns None. -/
def drillDownVariance
    (oldParse newParse : Except String (List (String × FinancialStatement)))
    (lineItemName : String) (period : String)
    (buildTree : Bool → String → Option FormulaComponent)
    (attrib : FormulaComponent → FormulaComponent → DrillDownResult) :
    Option DrillDownResult :=
  match oldParse with
  | Except.error _ => Option.none
  | Except.ok oldSts =>
    match newParse with
    | Except.error _ => Option.none
    | Except.ok newSts =>
      match pyGet oldSts "target", pyGet newSts "target" with
      | some oldStmt, some newStmt =>
        match pyGet oldStmt.line_items (PyKey.str lineItemName),
            pyGet newStmt.line_items (PyKey.str lineItemName) with
        | some oldItem, some newItem =>
          if !optTruthy oldItem.formula && !optTruthy newItem.formula then Option.none
          else
            let sourceRow := oldItem.row_number
            match buildTree true (drillAddress oldStmt period sourceRow),
                buildTree false (drillAddress newStmt period sourceRow) with
            | some oc, some nc => some (attrib oc nc)
            | _, _ => Option.none
        | _, _ => Option.none
      | _, _ => Option.none

/-!  Concrete worksheets and statements used to evaluate the embedding. -/

/-- Cells of the spec exampe sheet: header row
[Line Item, 1Q25, 2Q25, 3Q25E] at row 6, one data row below it. -/
def esCell : Nat → Nat → Cell := fun r c =>
  match r, c with
  | 6, 1 => ⟨CellVal.str "Line Item", false⟩
  | 6, 2 => ⟨CellVal.str "1Q25", false⟩
  | 6, 3 => ⟨CellVal.str "2Q25", false⟩
  | 6, 4 => ⟨CellVal.str "3Q25E", false⟩
  | 7, 1 => ⟨CellVal.str "Revenue", false⟩
  | 7, 2 => ⟨CellVal.int 100, false⟩
  | 7, 3 => ⟨CellVal.int 110, false⟩
  | 7, 4 => ⟨CellVal.int 120, false⟩
  | _, _ => ⟨CellVal.none, false⟩

/-- The literal example sheet of the spec (header row at Excel row 6). -/
def exampleSheet : Sheet :=
  ⟨"IS", 7, 4, esCell, fun r c => (esCell r c).value, true⟩

/-- Cells of a sheet whose periods are discovered on two different rows:
month-name periods in header row 1 (columns 2..4) and one more period at
row 2, column 2. -/
def mrCell : Nat → Nat → Cell := fun r c =>
  match r, c with
  | 1, 1 => ⟨CellVal.str "Items", false⟩
  | 1, 2 => ⟨CellVal.str "Mar 2024", false⟩
  | 1, 3 => ⟨CellVal.str "Apr 2024", false⟩
  | 1, 4 => ⟨CellVal.str "May 2024", false⟩
  | 2, 2 => ⟨CellVal.str "Jun 2024", false⟩
  | _, _ => ⟨CellVal.none, false⟩

/-- A sheet with a valid header row (row 1) plus a stray period on row 2
in an earlier column; month-name periods defeat template synthesis. -/
def multiRowSheet : Sheet :=
  ⟨"IS", 2, 4, mrCell, fun r c => (mrCell r c).value, true⟩

/-- Cells of a sheet with no detectable period header row but a
perfectly extractable data row at row 6. -/
def nhCell : Nat → Nat → Cell := fun r c =>
  match r, c with
  | 6, 1 => ⟨CellVal.str "Revenue", false⟩
  | 6, 2 => ⟨CellVal.int 100, false⟩
  | _, _ => ⟨CellVal.none, false⟩

/-- A sheet in which no row of the first 10 qualifies as a period
header. -/
def noHeaderSheet : Sheet :=
  ⟨"NoHeader", 6, 2, nhCell, fun r c => (nhCell r c).value, true⟩

/-- Old-side line item labelled Total Revenue at row 10. -/
def liTotalRevenue : LineItem :=
  ⟨"Total Revenue", 10, [("3Q25E", 1000000)], Option.none, []⟩

/-- New-side line item labelled Total Revenues at row 12. -/
def liTotalRevenues : LineItem :=
  ⟨"Total Revenues", 12, [("3Q25E", 1150000)], Option.none, []⟩

/-- Old statement as the parser builds it: line_items keyed by int row. -/
def stOldTR : FinancialStatement :=
  ⟨"IS", ["3Q25E"], [(PyKey.int 10, liTotalRevenue)], [("3Q25E", 2)]⟩

/-- New statement with the renamed label at a different row. -/
def stNewTR : FinancialStatement :=
  ⟨"IS", ["3Q25E"], [(PyKey.int 12, liTotalRevenues)], [("3Q25E", 2)]⟩

/-- Old-side line item whose value is exactly zero in the target period. -/
def liZeroOld : LineItem := ⟨"New Product", 20, [("3Q25E", 0)], Option.none, []⟩

/-- New-side counterpart with value 500. -/
def liZeroNew : LineItem := ⟨"New Product", 20, [("3Q25E", 500)], Option.none, []⟩

/-- A trivial drill-down result, used to instantiate the abstracted
attribution function in witnesses. -/
def dummyDDR : DrillDownResult := ⟨"x", 0, 0, 0, [], []⟩

/-- The candidate periods generated from the single observation FY1Q25
(template synthesis followed by expansion over the default year range). -/
def fy1q25Expansion : List String :=
  pyGetD (generatePeriodsFromTemplates (suggestTemplatesFromSamples ["FY1Q25"])
    defaultYearRange) "Quarterly FY Format" []

/-- The item a drill-down request reaches inside a parse result: the
target statement, then the line_items lookup by str name. -/
def targetItem (p : Except String (List (String × FinancialStatement)))
    (name : String) : Option LineItem :=
  match p with
  | Except.error _ => Option.none
  | Except.ok sts =>
    match pyGet sts "target" with
    | Option.none => Option.none
    | some st => pyGet st.line_items (PyKey.str name)

/-- Is a line_items dict key an int row number (as the parser always
produces)? -/
def isIntKey : PyKey → Bool
  | PyKey.int _ => true
  | PyKey.str _ => false

/-- All line_items keys of a statement are int row numbers. -/
def allIntKeys (st : FinancialStatement) : Bool :=
  (dictKeys st.line_items).all isIntKey

/-- The period/column dict detected on multiRowSheet. -/
def mrCols : List (String × Nat) :=
  [("Mar 2024", 2), ("Apr 2024", 3), ("May 2024", 4), ("Jun 2024", 2)]

/-- The statement parsed from the example sheet. -/
def stExample : FinancialStatement :=
  ⟨"IS", ["1Q25", "2Q25", "3Q25E"],
    [(PyKey.int 7, ⟨"Revenue", 7, [("1Q25", 100), ("2Q25", 110), ("3Q25E", 120)],
      Option.none, []⟩)],
    [("1Q25", 2), ("2Q25", 3), ("3Q25E", 4)]⟩

/-- Sheet selection of the multi-sheet examples: three statement types. -/
def wbSelected : List (String × String) :=
  [("income_statement", "S1"), ("balance_sheet", "S2"), ("cash_flow", "S3")]

/-- A worksheet with degenerate dimensions (max_row 0): its period scan
processes zero cells, so _detect_periods raises and _parse_sheet
genuinely fails on it. -/
def emptySheet : Sheet :=
  ⟨"S2", 0, 0, fun _ _ => ⟨CellVal.none, false⟩, fun _ _ => CellVal.none, true⟩

/-- The statement parseSheet builds from multiRowSheet under a given
sheet name: four detected periods, no line items (the only row past the
header holds nothing but a period label). -/
def stMR (nm : String) : FinancialStatement :=
  ⟨nm, ["Mar 2024", "Apr 2024", "May 2024", "Jun 2024"], [], mrCols⟩

/-- The statement parseSheet builds from noHeaderSheet: no periods
detected, and without periods no row has meaningful data. -/
def stNH (nm : String) : FinancialStatement := ⟨nm, [], [], []⟩

/-- Workbook of the C7 counterexample: the sheet requested as balance
sheet has no detectable period header row. -/
def cxWorkbook : Workbook :=
  [("S1", multiRowSheet), ("S2", noHeaderSheet), ("S3", multiRowSheet)]

/-- Workbook of the C7 witness: the sheet requested as balance sheet is
degenerate and genuinely fails to parse. -/
def wWorkbook : Workbook :=
  [("S1", multiRowSheet), ("S2", emptySheet), ("S3", multiRowSheet)]

/-- The error message recorded for one failing sheet. -/
def sheetErrMsg (ts : String × String) (e : String) : String :=
  "Failed to parse sheet " ++ ts.2 ++ " for " ++ ts.1 ++ ": " ++ e

/-- The failure messages the loop accumulates over a selection. -/
def failMsgs (parse : String → Except String FinancialStatement)
    (selected : List (String × String)) : List String :=
  selected.filterMap (fun ts =>
    match parse ts.2 with
    | Except.ok _ => Option.none
    | Except.error e => some (sheetErrMsg ts e))

/-- The enhanced detection state reached in the template branch. -/
def enhTT (s : Sheet) (std : DetectState) : DetectState :=
  enhanceDetected (mergeDetected (altDetect s) std)
    (findPeriodsUsingTemplates s
      (suggestTemplatesFromSamples (mergeDetected (altDetect s) std).1)
      (pyRange 1 (min 11 (s.maxRow + 1))))

/-!  Helper lemmas about the Python dict model. -/

theorem mem_pySet {κ α : Type} [DecidableEq κ] {l : List (κ × α)} {k : κ} {v : α}
    {x : κ × α} (h : x ∈ pySet l k v) : x = (k, v) ∨ x ∈ l := by
  induction l with
  | nil =>
    simp only [pySet, List.mem_singleton] at h
    exact Or.inl h
  | cons hd tl ih =>
    obtain ⟨k', w⟩ := hd
    simp only [pySet] at h
    split at h
    · rename_i hk
      subst hk
      rcases List.mem_cons.mp h with h' | h'
      · exact Or.inl h'
      · exact Or.inr (List.mem_cons_of_mem _ h')
    · rcases List.mem_cons.mp h with h' | h'
      · exact Or.inr (h' ▸ List.mem_cons_self _ _)
      · rcases ih h' with h'' | h''
        · exact Or.inl h''
        · exact Or.inr (List.mem_cons_of_mem _ h'')

theorem pyGet_pySet_self {κ α : Type} [DecidableEq κ] (l : List (κ × α)) (k : κ) (v : α) :
    pyGet (pySet l k v) k = some v := by
  induction l with
  | nil => simp [pySet, pyGet]
  | cons hd tl ih =>
    obtain ⟨k', w⟩ := hd
    simp only [pySet]
    split
    · rename_i hk
      simp [pyGet, hk]
    · rename_i hk
      simp [pyGet, hk, ih]

theorem pyGet_pySet_ne {κ α : Type} [DecidableEq κ] (l : List (κ × α)) {k k' : κ} (v : α)
    (h : k' ≠ k) : pyGet (pySet l k v) k' = pyGet l k' := by
  induction l with
  | nil =>
    simp only [pySet, pyGet]
    rw [if_neg (fun hh : k = k' => h hh.symm)]
  | cons hd tl ih =>
    obtain ⟨k'', w⟩ := hd
    simp only [pySet]
    split
    · rename_i hk
      simp only [pyGet]
      rw [if_neg (fun hh : k'' = k' => h (hh.symm.trans hk)),
        if_neg (fun hh : k'' = k' => h (hh.symm.trans hk))]
    · simp only [pyGet]
      by_cases hh : k'' = k'
      · simp [hh]
      · simp [hh, ih]

theorem pySet_ne_nil {κ α : Type} [DecidableEq κ] (l : List (κ × α)) (k : κ) (v : α) :
    pySet l k v ≠ [] := by
  cases l with
  | nil => simp [pySet]
  | cons hd tl =>
    rcases hd with ⟨k', w⟩
    by_cases hk : k' = k <;> simp [pySet, hk]

/-!  Claim C10: _get_column_from_period is total with the literal "A"
fallback. -/

/-- Claim C10: _get_column_from_period is total: for a recorded period it
returns the Excel column letters of the recorded column number, and for
an absent period it returns the literal "A", so the drill-down cell
address for an unrecorded period is built in column A. -/
theorem c10_get_column (st : FinancialStatement) (period : String) :
    (∀ c, pyGet st.period_columns period = some c →
      getColumnFromPeriod st period = numberToColumnLetter c) ∧
    (pyGet st.period_columns period = Option.none →
      getColumnFromPeriod st period = "A" ∧
      ∀ row, drillAddress st period row = "A" ++ natToString row) ∧
    numberToColumnLetter 1 = "A" ∧ numberToColumnLetter 26 = "Z" ∧
    numberToColumnLetter 27 = "AA" ∧ numberToColumnLetter 703 = "AAA" := by
  refine ⟨?_, ?_, by decide, by decide, by decide, by decide⟩
  · intro c hc
    simp [getColumnFromPeriod, hc]
  · intro hc
    constructor
    · simp [getColumnFromPeriod, hc]
    · intro row
      simp [drillAddress, getColumnFromPeriod, hc]

/-- Witness for C10 at the concrete statement stOldTR: period 3Q25E is
recorded at column 2, period FY26 is not recorded. -/
theorem c10_witness : getColumnFromPeriod stOldTR "3Q25E" = "B" ∧
    getColumnFromPeriod stOldTR "FY26" = "A" ∧
    drillAddress stOldTR "FY26" 10 = "A10" := by
  refine ⟨?_, ?_, ?_⟩
  · rw [(c10_get_column stOldTR "3Q25E").1 2 rfl]; rfl
  · exact ((c10_get_column stOldTR "FY26").2.1 rfl).1
  · rw [((c10_get_column stOldTR "FY26").2.1 rfl).2 10]; rfl

/-!  Claim C8: drill-down returns None without raising when the item is
missing on either side or has no formula on both sides. -/

/-- Claim C8: for every drill-down request in which the target item is
not found in both parsed statements, or is found but has no (truthy)
formula in either version, drill_down_variance returns None; being a
total function into Option, it raises no exception to the caller. -/
theorem c8_unavailable (oldParse newParse : Except String (List (String × FinancialStatement)))
    (name period : String) (bt : Bool → String → Option FormulaComponent)
    (ab : FormulaComponent → FormulaComponent → DrillDownResult)
    (h : targetItem oldParse name = Option.none ∨ targetItem newParse name = Option.none ∨
      (∃ oi ni, targetItem oldParse name = some oi ∧ targetItem newParse name = some ni ∧
        optTruthy oi.formula = false ∧ optTruthy ni.formula = false)) :
    drillDownVariance oldParse newParse name period bt ab = Option.none := by
  rcases oldParse with e | oldSts
  · rfl
  rcases newParse with e | newSts
  · rfl
  rcases ho : pyGet oldSts "target" with _ | oldStmt
  · simp [drillDownVariance, ho]
  rcases hn : pyGet newSts "target" with _ | newStmt
  · simp [drillDownVariance, ho, hn]
  rcases hoi : pyGet oldStmt.line_items (PyKey.str name) with _ | oi
  · simp [drillDownVariance, ho, hn, hoi]
  rcases hni : pyGet newStmt.line_items (PyKey.str name) with _ | ni
  · simp [drillDownVariance, ho, hn, hoi, hni]
  simp only [targetItem, ho, hn, hoi, hni] at h
  rcases h with h | h | ⟨oi', ni', hoi', hni', hof, hnf⟩
  · exact Option.noConfusion h
  · exact Option.noConfusion h
  · obtain rfl : oi = oi' := by injection hoi'
    obtain rfl : ni = ni' := by injection hni'
    simp [drillDownVariance, ho, hn, hoi, hni, hof, hnf]

/-- Witness for C8: on statements the parser built (line_items keyed by
int rows), the str-name lookup fails on both sides and drill-down yields
None. -/
theorem c8_witness :
    drillDownVariance (Except.ok [("target", stOldTR)]) (Except.ok [("target", stNewTR)])
      "Total Revenue" "3Q25E" (fun _ _ => Option.none) (fun _ _ => dummyDDR) =
      Option.none :=
  c8_unavailable _ _ _ _ _ _ (Or.inl rfl)

/-!  Claim C1: the two matching passes run on line_items dict keys, which
are int row numbers, not label strings; the fuzzy pass calls .lower() on
them and raises AttributeError. -/

/-- Claim C1 (code bug): on parser-built statements the labels
Total Revenue and Total Revenues are never compared; match_line_items
compares the int row keys 10 and 12, finds no exact match, and the fuzzy
pass raises AttributeError calling .lower() on the int key. -/
theorem c1_row_key_crash :
    matchLineItems stOldTR stNewTR = Except.error attrLowerErr ∧
    liTotalRevenue.name = "Total Revenue" ∧
    liTotalRevenues.name = "Total Revenues" ∧
    dictKeys stOldTR.line_items = [PyKey.int 10] ∧
    dictKeys stNewTR.line_items = [PyKey.int 12] :=
  ⟨rfl, rfl, rfl, rfl, rfl⟩

/-!  Claim C4: template synthesis round-trip from FY1Q25. -/

/-- Claim C4 (corrected): expanding the template synthesized from the
single observation FY1Q25 yields FY1Q25..FY4Q25 but no E-suffixed form,
because the [E] marker is attached only when the observed period itself
ends with E (as it does for FY1Q25E). -/
theorem c4_expansion :
    suggestTemplatesFromSamples ["FY1Q25"] =
      [⟨"Quarterly FY Format", "FY\x7bQ\x7dQ\x7bYY\x7d", "FY1Q25", "quarterly"⟩] ∧
    fy1q25Expansion.contains "FY1Q25" = true ∧
    fy1q25Expansion.contains "FY2Q25" = true ∧
    fy1q25Expansion.contains "FY3Q25" = true ∧
    fy1q25Expansion.contains "FY4Q25" = true ∧
    fy1q25Expansion.contains "FY1Q25E" = false ∧
    fy1q25Expansion.contains "FY2Q25E" = false ∧
    fy1q25Expansion.contains "FY3Q25E" = false ∧
    fy1q25Expansion.contains "FY4Q25E" = false ∧
    (pyGetD (generatePeriodsFromTemplates (suggestTemplatesFromSamples ["FY1Q25E"])
      defaultYearRange) "Quarterly FY Format" []).contains "FY1Q25E" = true := by
  refine ⟨by decide, by decide, by decide, by decide, by decide, by decide, by decide,
    by decide, by decide, by decide⟩

/-- Counterexample for C4 as stated: no synthesized template expansion
from the observation FY1Q25 contains the E-suffixed form FY1Q25E. -/
theorem c4_counterexample :
    (((generatePeriodsFromTemplates (suggestTemplatesFromSamples ["FY1Q25"])
      defaultYearRange).map Prod.snd).flatten).contains "FY1Q25E" = false := by
  decide

/-!  Claim C3: variance arithmetic. -/

theorem mem_cvStep {oldS newS : FinancialStatement} {period : String}
    {vs : List (PyKey × VarianceRecord)} {m : PyKey × PyKey} {x : PyKey × VarianceRecord}
    (h : x ∈ cvStep oldS newS period vs m) :
    x ∈ vs ∨ ∃ oi ni, pyGet oldS.line_items m.1 = some oi ∧
      pyGet newS.line_items m.2 = some ni ∧
      x = (m.1, mkVarianceRecord m.1 m.2 oi ni period) := by
  rcases ho : pyGet oldS.line_items m.1 with _ | oi
  · simp only [cvStep, ho] at h
    exact Or.inl h
  rcases hn : pyGet newS.line_items m.2 with _ | ni
  · simp only [cvStep, ho, hn] at h
    exact Or.inl h
  simp only [cvStep, ho, hn] at h
  rcases mem_pySet h with h' | h'
  · exact Or.inr ⟨oi, ni, rfl, rfl, h'⟩
  · exact Or.inl h'

theorem calcVariances_mem_aux (oldS newS : FinancialStatement) (period : String)
    (pairs : List (PyKey × PyKey)) :
    ∀ (l : List (PyKey × PyKey)) (acc : List (PyKey × VarianceRecord)),
      (∀ x ∈ acc, ∃ o n oi ni, (o, n) ∈ pairs ∧ pyGet oldS.line_items o = some oi ∧
        pyGet newS.line_items n = some ni ∧ x = (o, mkVarianceRecord o n oi ni period)) →
      (∀ m ∈ l, m ∈ pairs) →
      ∀ x ∈ l.foldl (cvStep oldS newS period) acc,
        ∃ o n oi ni, (o, n) ∈ pairs ∧ pyGet oldS.line_items o = some oi ∧
          pyGet newS.line_items n = some ni ∧ x = (o, mkVarianceRecord o n oi ni period) := by
  intro l
  induction l with
  | nil => intro acc hacc _ x hx; exact hacc x hx
  | cons m l ih =>
    intro acc hacc hl x hx
    refine ih (cvStep oldS newS period acc m) ?_ (fun m' hm' => hl m' (List.mem_cons_of_mem _ hm')) x hx
    intro y hy
    rcases mem_cvStep hy with hy' | ⟨oi, ni, ho, hn, hy'⟩
    · exact hacc y hy'
    · exact ⟨m.1, m.2, oi, ni, hl m (List.mem_cons_self _ _), ho, hn, hy'⟩

/-- Claim C3: for every matched pair of found line items the variance
record carries absolute_variance = new - old and percentage_variance =
absolute / old * 100 guarded to 0 when the old value is exactly 0 (so the
division branch is never taken on a zero denominator); and every record
calculate_variances returns arises that way from a matched pair. -/
theorem c3_variance :
    (∀ (oN nN : PyKey) (oi ni : LineItem) (period : String),
      (mkVarianceRecord oN nN oi ni period).old_value = pyGetD oi.values period 0 ∧
      (mkVarianceRecord oN nN oi ni period).new_value = pyGetD ni.values period 0 ∧
      (mkVarianceRecord oN nN oi ni period).absolute_variance =
        pyGetD ni.values period 0 - pyGetD oi.values period 0 ∧
      (mkVarianceRecord oN nN oi ni period).percentage_variance =
        (if pyGetD oi.values period 0 = 0 then 0
         else (pyGetD ni.values period 0 - pyGetD oi.values period 0) /
           pyGetD oi.values period 0 * 100)) ∧
    (∀ (oldS newS : FinancialStatement) (period : String) (pairs : List (PyKey × PyKey))
      (x : PyKey × VarianceRecord), x ∈ calculateVariances oldS newS period pairs →
      ∃ o n oi ni, (o, n) ∈ pairs ∧ pyGet oldS.line_items o = some oi ∧
        pyGet newS.line_items n = some ni ∧
        x = (o, mkVarianceRecord o n oi ni period)) := by
  constructor
  · intro oN nN oi ni period
    refine ⟨rfl, rfl, rfl, ?_⟩
    by_cases h : pyGetD oi.values period 0 = 0 <;> simp [mkVarianceRecord, h]
  · intro oldS newS period pairs x hx
    exact calcVariances_mem_aux oldS newS period pairs pairs []
      (fun y hy => absurd hy (List.not_mem_nil y)) (fun m hm => hm) x hx

/-- Witness for C3: old 1,000,000 and new 1,150,000 give absolute
variance 150,000 and percentage variance 15; an old value of exactly 0
gives percentage variance 0 with no division performed. -/
theorem c3_witness :
    (mkVarianceRecord (PyKey.int 10) (PyKey.int 12) liTotalRevenue liTotalRevenues
      "3Q25E").absolute_variance = 150000 ∧
    (mkVarianceRecord (PyKey.int 10) (PyKey.int 12) liTotalRevenue liTotalRevenues
      "3Q25E").percentage_variance = 15 ∧
    (mkVarianceRecord (PyKey.int 20) (PyKey.int 20) liZeroOld liZeroNew
      "3Q25E").percentage_variance = 0 ∧
    (∃ o n oi ni, (o, n) ∈ [(PyKey.int 10, PyKey.int 12)] ∧
      pyGet stOldTR.line_items o = some oi ∧ pyGet stNewTR.line_items n = some ni ∧
      (PyKey.int 10, mkVarianceRecord (PyKey.int 10) (PyKey.int 12) liTotalRevenue
        liTotalRevenues "3Q25E") = (o, mkVarianceRecord o n oi ni "3Q25E")) := by
  have h1 := c3_variance.1 (PyKey.int 10) (PyKey.int 12) liTotalRevenue liTotalRevenues "3Q25E"
  have h0 := c3_variance.1 (PyKey.int 20) (PyKey.int 20) liZeroOld liZeroNew "3Q25E"
  refine ⟨?_, ?_, ?_, ?_⟩
  · rw [h1.2.2.1]
    show (1150000 : ℚ) - 1000000 = 150000
    norm_num
  · rw [h1.2.2.2]
    show (if (1000000 : ℚ) = 0 then 0
      else ((1150000 : ℚ) - 1000000) / 1000000 * 100) = 15
    norm_num
  · rw [h0.2.2.2]
    show (if (0 : ℚ) = 0 then 0 else ((500 : ℚ) - 0) / 0 * 100) = 0
    norm_num
  · exact c3_variance.2 stOldTR stNewTR "3Q25E" [(PyKey.int 10, PyKey.int 12)] _
      (List.mem_singleton.mpr rfl)

/-!  Claim C9: values keys are always detected periods. -/

theorem rvfStep_keys {s : Sheet} {row : Nat} {cols : List (String × Nat)}
    {st : List (String × ℚ) × List (String × CellVal)} {p : String}
    {x : String × ℚ} (hx : x ∈ (rvfStep s row cols st p).1) :
    x ∈ st.1 ∨ x.1 = p := by
  simp only [rvfStep] at hx
  repeat' split at hx
  all_goals try exact Or.inl hx
  all_goals
    rcases mem_pySet hx with h' | h'
  all_goals try exact Or.inl h'
  all_goals exact Or.inr (by rw [h'])

theorem rvf_keys_aux (s : Sheet) (row : Nat) (cols : List (String × Nat))
    (P : String → Prop) :
    ∀ (l : List String) (acc : List (String × ℚ) × List (String × CellVal)),
      (∀ x ∈ acc.1, P x.1) → (∀ p ∈ l, P p) →
      ∀ x ∈ (l.foldl (rvfStep s row cols) acc).1, P x.1 := by
  intro l
  induction l with
  | nil => intro acc hacc _ x hx; exact hacc x hx
  | cons p l ih =>
    intro acc hacc hl x hx
    refine ih (rvfStep s row cols acc p) ?_ (fun p' hp' => hl p' (List.mem_cons_of_mem _ hp')) x hx
    intro y hy
    rcases rvfStep_keys hy with h' | h'
    · exact hacc y h'
    · exact h' ▸ hl p (List.mem_cons_self _ _)

theorem rowValuesFormulas_keys (s : Sheet) (row : Nat) (periods : List String)
    (cols : List (String × Nat)) :
    ∀ x ∈ (rowValuesFormulas s row periods cols).1, x.1 ∈ periods :=
  rvf_keys_aux s row cols (· ∈ periods) periods ([], [])
    (fun y hy => absurd hy (List.not_mem_nil y)) (fun _ hp => hp)

theorem mem_eliStep {s : Sheet} {periods : List String} {cols : List (String × Nat)}
    {items : List (PyKey × LineItem)} {row : Nat} {x : PyKey × LineItem}
    (hx : x ∈ eliStep s periods cols items row) :
    x ∈ items ∨ x.2.values = (rowValuesFormulas s row periods cols).1 := by
  simp only [eliStep] at hx
  repeat' split at hx
  all_goals try exact Or.inl hx
  rcases List.mem_append.mp hx with h' | h'
  · exact Or.inl h'
  · right
    rw [List.mem_singleton.mp h']
    rfl

theorem extract_values_in (s : Sheet) (periods : List String) (cols : List (String × Nat)) :
    ∀ x ∈ extractLineItems s periods cols, ∀ pv ∈ x.2.values, pv.1 ∈ periods := by
  have aux : ∀ (rows : List Nat) (acc : List (PyKey × LineItem)),
      (∀ x ∈ acc, ∀ pv ∈ x.2.values, pv.1 ∈ periods) →
      ∀ x ∈ rows.foldl (eliStep s periods cols) acc, ∀ pv ∈ x.2.values, pv.1 ∈ periods := by
    intro rows
    induction rows with
    | nil => intro acc hacc x hx; exact hacc x hx
    | cons row rows ih =>
      intro acc hacc x hx
      refine ih (eliStep s periods cols acc row) ?_ x hx
      intro y hy
      rcases mem_eliStep hy with h' | h'
      · exact hacc y h'
      · intro pv hpv
        exact rowValuesFormulas_keys s row periods cols pv (h' ▸ hpv)
  intro x hx
  exact aux (pyRange (extractionStartRow s) (s.maxRow + 1)) []
    (fun y hy => absurd hy (List.not_mem_nil y)) x hx

/-- Claim C9: in every FinancialStatement produced by parsing a sheet,
every key of every line item values map is one of the statement detected
periods. -/
theorem c9_values_in_periods (s : Sheet) (nm : String) (st : FinancialStatement)
    (hparse : parseSheet s nm = Except.ok st) :
    ∀ x ∈ st.line_items, ∀ pv ∈ x.2.values, pv.1 ∈ st.periods := by
  unfold parseSheet at hparse
  split at hparse
  · exact Except.noConfusion hparse
  · rename_i det hdet
    obtain rfl : (⟨nm, det.1, extractLineItems s det.1 det.2, det.2⟩ : FinancialStatement) = st := by
      injection hparse
    exact extract_values_in s det.1 det.2

/-- Witness for C9 on the parsed example sheet: the value recorded for
1Q25 on the Revenue row lies under a detected period. -/
theorem c9_witness : ("1Q25", (100 : ℚ)).1 ∈ stExample.periods :=
  c9_values_in_periods exampleSheet "IS" stExample rfl
    (PyKey.int 7, ⟨"Revenue", 7, [("1Q25", 100), ("2Q25", 110), ("3Q25E", 120)],
      Option.none, []⟩)
    (List.mem_singleton.mpr rfl) ("1Q25", 100) (List.mem_cons_self _ _)

/-!  Claim C6: header-row detection and the row-6 extraction fallback. -/

theorem findHeaderAux_ok_mem (s : Sheet) :
    ∀ (L : List Nat) (r : Nat), findHeaderAux s L = Except.ok r →
      r ∈ L ∧ looksLikePeriodHeader (rowValues s r) = true := by
  intro L
  induction L with
  | nil => intro r h; exact Except.noConfusion h
  | cons x rest ih =>
    intro r h
    simp only [findHeaderAux] at h
    split at h
    · rename_i hq
      obtain rfl : x = r := by injection h
      exact ⟨List.mem_cons_self _ _, hq⟩
    · rcases ih r h with ⟨hm, hq⟩
      exact ⟨List.mem_cons_of_mem _ hm, hq⟩

theorem findHeaderAux_minimal (s : Sheet) :
    ∀ (L : List Nat), L.Pairwise (· < ·) → ∀ r, findHeaderAux s L = Except.ok r →
      ∀ r' ∈ L, r' < r → looksLikePeriodHeader (rowValues s r') = false := by
  intro L
  induction L with
  | nil => intro _ r h; exact Except.noConfusion h
  | cons x rest ih =>
    intro hpw r h r' hr' hlt
    rcases List.pairwise_cons.mp hpw with ⟨hxlt, hpw'⟩
    simp only [findHeaderAux] at h
    split at h
    · rename_i hq
      obtain rfl : x = r := by injection h
      rcases List.mem_cons.mp hr' with rfl | hm
      · exact absurd hlt (lt_irrefl _)
      · exact absurd (lt_trans (hxlt r' hm) hlt) (lt_irrefl _)
    · rename_i hq
      rcases List.mem_cons.mp hr' with rfl | hm
      · exact Bool.eq_false_iff.mpr hq
      · exact ih hpw' r h r' hm hlt

theorem findHeaderAux_error (s : Sheet) :
    ∀ (L : List Nat), (∀ r ∈ L, looksLikePeriodHeader (rowValues s r) = false) →
      findHeaderAux s L = Except.error (noHeaderRowMsg s) := by
  intro L
  induction L with
  | nil => intro _; rfl
  | cons x rest ih =>
    intro h
    simp only [findHeaderAux]
    rw [if_neg (by simp [h x (List.mem_cons_self _ _)])]
    exact ih (fun r hr => h r (List.mem_cons_of_mem _ hr))

theorem headerScanRows_pairwise (s : Sheet) : (headerScanRows s).Pairwise (· < ·) := by
  unfold headerScanRows pyRange
  exact List.pairwise_lt_range' 1 _

/-- Claim C6 (amended): find_period_header_row scans rows 1..10 top-down
and returns the first row with at least 3 period-like cells outside
column 1; it raises a ValueError when no scanned row qualifies; however
_extract_line_items catches that error and silently proceeds from default
row 6 instead of aborting. -/
theorem c6_header_detection :
    (∀ (s : Sheet) (r : Nat), findPeriodHeaderRow s = Except.ok r →
      r ∈ headerScanRows s ∧ looksLikePeriodHeader (rowValues s r) = true ∧
      ∀ r' ∈ headerScanRows s, r' < r → looksLikePeriodHeader (rowValues s r') = false) ∧
    (∀ s : Sheet, (∀ r ∈ headerScanRows s, looksLikePeriodHeader (rowValues s r) = false) →
      findPeriodHeaderRow s = Except.error (noHeaderRowMsg s)) ∧
    (∀ (s : Sheet) (e : String), findPeriodHeaderRow s = Except.error e →
      extractionStartRow s = 6) ∧
    (∀ (s : Sheet) (r : Nat), findPeriodHeaderRow s = Except.ok r →
      extractionStartRow s = r + 1) := by
  refine ⟨?_, ?_, ?_, ?_⟩
  · intro s r h
    rcases findHeaderAux_ok_mem s (headerScanRows s) r h with ⟨hm, hq⟩
    exact ⟨hm, hq, findHeaderAux_minimal s (headerScanRows s) (headerScanRows_pairwise s) r h⟩
  · intro s h
    exact findHeaderAux_error s (headerScanRows s) h
  · intro s e h
    unfold extractionStartRow
    rw [h]
  · intro s r h
    unfold extractionStartRow
    rw [h]

/-- Counterexample for C6 as stated: on a sheet with no qualifying
header row, detection raises as claimed, but line-item extraction still
proceeds from default row 6 and extracts the Revenue row. -/
theorem c6_counterexample :
    findPeriodHeaderRow noHeaderSheet = Except.error (noHeaderRowMsg noHeaderSheet) ∧
    extractionStartRow noHeaderSheet = 6 ∧
    extractLineItems noHeaderSheet ["1Q25"] [("1Q25", 2)] =
      [(PyKey.int 6, ⟨"Revenue", 6, [("1Q25", 100)], Option.none, []⟩)] :=
  ⟨rfl, rfl, by decide⟩

/-- Witness for C6: the no-header sheet falls back to start row 6; the
example sheet has its first qualifying header at row 6. -/
theorem c6_witness : extractionStartRow noHeaderSheet = 6 ∧
    6 ∈ headerScanRows exampleSheet ∧
    looksLikePeriodHeader (rowValues exampleSheet 6) = true :=
  ⟨c6_header_detection.2.2.1 noHeaderSheet (noHeaderRowMsg noHeaderSheet) rfl,
    (c6_header_detection.1 exampleSheet 6 rfl).1,
    (c6_header_detection.1 exampleSheet 6 rfl).2.1⟩

/-!  Claim C7: per-sheet failures accumulate. -/

theorem accParses_errors (parse : String → Except String FinancialStatement) :
    ∀ (l : List (String × String)) (acc : List (String × FinancialStatement) × List String),
      (accParses parse acc l).2 = acc.2 ++ failMsgs parse l := by
  intro l
  induction l with
  | nil => intro acc; simp [accParses, failMsgs]
  | cons ts l ih =>
    intro acc
    rcases hp : parse ts.2 with e | st
    · simp only [accParses, hp, failMsgs, List.filterMap_cons]
      rw [ih]
      simp [failMsgs, sheetErrMsg]
    · simp only [accParses, hp, failMsgs, List.filterMap_cons]
      rw [ih]
      simp [failMsgs]

theorem accParses_fst_of_all_fail (parse : String → Except String FinancialStatement) :
    ∀ (l : List (String × String)) (acc : List (String × FinancialStatement) × List String),
      (∀ ts ∈ l, ¬(parse ts.2).isOk = true) → (accParses parse acc l).1 = acc.1 := by
  intro l
  induction l with
  | nil => intro acc _; rfl
  | cons ts l ih =>
    intro acc h
    rcases hp : parse ts.2 with e | st
    · simp only [accParses, hp]
      exact ih _ (fun ts' h' => h ts' (List.mem_cons_of_mem _ h'))
    · exact absurd (show (parse ts.2).isOk = true by rw [hp]; rfl)
        (h ts (List.mem_cons_self _ _))

theorem accParses_fst_ne_nil (parse : String → Except String FinancialStatement) :
    ∀ (l : List (String × String)) (acc : List (String × FinancialStatement) × List String),
      acc.1 ≠ [] → (accParses parse acc l).1 ≠ [] := by
  intro l
  induction l with
  | nil => intro acc h; exact h
  | cons ts l ih =>
    intro acc h
    rcases hp : parse ts.2 with e | st
    · simp only [accParses, hp]
      exact ih _ h
    · simp only [accParses, hp]
      exact ih _ (pySet_ne_nil _ _ _)

theorem accParses_fst_some (parse : String → Except String FinancialStatement) :
    ∀ (l : List (String × String)) (acc : List (String × FinancialStatement) × List String),
      (∃ ts ∈ l, (parse ts.2).isOk = true) → (accParses parse acc l).1 ≠ [] := by
  intro l
  induction l with
  | nil => intro acc h; rcases h with ⟨ts, hm, _⟩; exact absurd hm (List.not_mem_nil ts)
  | cons ts l ih =>
    intro acc h
    rcases hp : parse ts.2 with e | st
    · simp only [accParses, hp]
      rcases h with ⟨ts', hm, hok⟩
      rcases List.mem_cons.mp hm with rfl | hm'
      · rw [hp] at hok
        exact absurd hok (by rw [show (Except.error e).isOk = false from rfl]; simp)
      · exact ih _ ⟨ts', hm', hok⟩
    · simp only [accParses, hp]
      exact accParses_fst_ne_nil parse l _ (pySet_ne_nil _ _ _)

theorem accParses_pyGet_stable (parse : String → Except String FinancialStatement) :
    ∀ (l : List (String × String)) (acc : List (String × FinancialStatement) × List String)
      (k : String), k ∉ l.map Prod.fst →
      pyGet (accParses parse acc l).1 k = pyGet acc.1 k := by
  intro l
  induction l with
  | nil => intro acc k _; rfl
  | cons ts l ih =>
    intro acc k hk
    have hk1 : k ≠ ts.1 := fun hh => hk (by simp [hh])
    have hk2 : k ∉ l.map Prod.fst := fun hh => hk (by simp [hh])
    rcases hp : parse ts.2 with e | st
    · simp only [accParses, hp]
      exact ih _ k hk2
    · simp only [accParses, hp]
      rw [ih _ k hk2]
      exact pyGet_pySet_ne _ _ hk1

theorem accParses_pyGet_found (parse : String → Except String FinancialStatement) :
    ∀ (l : List (String × String)) (acc : List (String × FinancialStatement) × List String)
      (ts : String × String) (st : FinancialStatement),
      ts ∈ l → parse ts.2 = Except.ok st → (l.map Prod.fst).Nodup →
      pyGet (accParses parse acc l).1 ts.1 = some st := by
  intro l
  induction l with
  | nil => intro acc ts st hm; exact absurd hm (List.not_mem_nil ts)
  | cons hd l ih =>
    intro acc ts st hm hok hnd
    rcases List.pairwise_cons.mp hnd with ⟨hd1, hnd'⟩
    rcases List.mem_cons.mp hm with rfl | hm'
    · have hnotin : ts.1 ∉ l.map Prod.fst := by
        intro hh
        rcases List.mem_map.mp hh with ⟨ts', hts', heq⟩
        exact hd1 ts'.1 (List.mem_map_of_mem _ hts') heq.symm
      simp only [accParses, hok]
      rw [accParses_pyGet_stable parse l _ ts.1 hnotin]
      exact pyGet_pySet_self _ _ _
    · rcases hp : parse hd.2 with e | st'
      · simp only [accParses, hp]
        exact ih _ ts st hm' hok hnd'
      · simp only [accParses, hp]
        exact ih _ ts st hm' hok hnd'

/-- Claim C7, corrected: with every requested sheet present in the
workbook, per-sheet parse failures accumulate into the parsing_errors
list (each failing sheet contributes its message) and do not abort
sibling sheets, and the call raises only when zero requested sheets
parse; but parsing_errors is only logged - the ok result is the
statements dict alone, each successful sheet retrievable by its
statement type, with no failure report in the return value. -/
theorem c7_failures_accumulate (wb : Workbook)
    (selected : List (String × String))
    (h1 : selected ≠ [])
    (h2 : ∀ ts ∈ selected, (dictKeys wb).contains ts.2 = true) :
    loggedParseErrors wb selected = failMsgs (wbParseSheet wb) selected ∧
    ((∃ ts ∈ selected, (wbParseSheet wb ts.2).isOk = true) →
      parseFinancialStatements wb selected =
        Except.ok (accParses (wbParseSheet wb) ([], []) selected).1) ∧
    ((∀ ts ∈ selected, ¬(wbParseSheet wb ts.2).isOk = true) →
      parseFinancialStatements wb selected =
        Except.error "Failed to parse any sheets") ∧
    (∀ (ts : String × String) (st : FinancialStatement), ts ∈ selected →
      wbParseSheet wb ts.2 = Except.ok st → (selected.map Prod.fst).Nodup →
      pyGet (accParses (wbParseSheet wb) ([], []) selected).1 ts.1 = some st) := by
  have hne : ¬selected.isEmpty = true := fun hh => h1 (List.isEmpty_iff.mp hh)
  have hmiss : (selected.filter (fun ts => !(dictKeys wb).contains ts.2)) = [] :=
    List.filter_eq_nil_iff.mpr (fun ts hts => by rw [h2 ts hts]; simp)
  refine ⟨?_, ?_, ?_, ?_⟩
  · have h := accParses_errors (wbParseSheet wb) selected ([], [])
    simpa [loggedParseErrors] using h
  · intro hex
    have hok : (accParses (wbParseSheet wb) ([], []) selected).1 ≠ [] :=
      accParses_fst_some (wbParseSheet wb) selected ([], []) hex
    simp only [parseFinancialStatements]
    rw [if_neg hne, hmiss]
    simp only [List.isEmpty_nil, Bool.not_true]
    rw [if_neg (by simp)]
    rw [if_neg (fun hh => hok (List.isEmpty_iff.mp hh))]
  · intro hall
    have hnil : (accParses (wbParseSheet wb) ([], []) selected).1 = [] :=
      accParses_fst_of_all_fail (wbParseSheet wb) selected ([], []) hall
    simp only [parseFinancialStatements]
    rw [if_neg hne, hmiss]
    simp only [List.isEmpty_nil, Bool.not_true]
    rw [if_neg (by simp)]
    rw [if_pos (by rw [hnil]; rfl)]
  · intro ts st hm hok hnd
    exact accParses_pyGet_found (wbParseSheet wb) selected ([], []) ts st hm hok hnd

/-- Counterexample for C7 as stated: 3 requested sheets of which the one
requested as balance sheet has no detectable period header row.  No
failure occurs at all - that sheet parses into an empty statement
because line-item extraction swallows the header-row error - so nothing
gets recorded, the call returns all three statements, and the ok result
carries no failure report, only the statements dict. -/
theorem c7_counterexample :
    findPeriodHeaderRow noHeaderSheet = Except.error (noHeaderRowMsg noHeaderSheet) ∧
    parseSheet noHeaderSheet "S2" = Except.ok (stNH "S2") ∧
    parseFinancialStatements cxWorkbook wbSelected =
      Except.ok [("income_statement", stMR "S1"), ("balance_sheet", stNH "S2"),
        ("cash_flow", stMR "S3")] ∧
    loggedParseErrors cxWorkbook wbSelected = [] :=
  ⟨rfl, rfl, rfl, rfl⟩

/-- Witness for C7: three requested sheets of which the one requested as
balance sheet genuinely fails (its period scan processes zero cells);
the other two statements are returned keyed by their statement types
without raising, and the failure message lands only in the logged
parsing_errors, not in the return value. -/
theorem c7_witness :
    parseFinancialStatements wWorkbook wbSelected =
      Except.ok [("income_statement", stMR "S1"), ("cash_flow", stMR "S3")] ∧
    loggedParseErrors wWorkbook wbSelected =
      ["Failed to parse sheet S2 for balance_sheet: Failed to scan sheet S2 for periods: No cells were processed in sheet S2 - this indicates a serious parsing error"] ∧
    pyGet (accParses (wbParseSheet wWorkbook) ([], []) wbSelected).1
      "income_statement" = some (stMR "S1") := by
  have h := c7_failures_accumulate wWorkbook wbSelected (by decide)
    (by intro ts hts; fin_cases hts <;> rfl)
  refine ⟨?_, ?_, ?_⟩
  · exact h.2.1 ⟨("income_statement", "S1"), List.mem_cons_self _ _, rfl⟩
  · exact h.1
  · exact h.2.2.2 ("income_statement", "S1") (stMR "S1")
      (List.mem_cons_self _ _) rfl (by decide)

/-!  Claim C5: period ordering. -/

theorem mem_insertSorted {α : Type} (le : α → α → Bool) (x : α) :
    ∀ (l : List α) (y : α), y ∈ insertSorted le x l ↔ y = x ∨ y ∈ l := by
  intro l
  induction l with
  | nil => intro y; simp [insertSorted]
  | cons z zs ih =>
    intro y
    simp only [insertSorted]
    split
    · simp only [List.mem_cons, ih y]
      tauto
    · simp only [List.mem_cons]

theorem sorted_insertSorted {α : Type} (le : α → α → Bool)
    (htot : ∀ a b, le a b = true ∨ le b a = true)
    (htrans : ∀ a b c, le a b = true → le b c = true → le a c = true) (x : α) :
    ∀ l : List α, l.Sorted (fun a b => le a b = true) →
      (insertSorted le x l).Sorted (fun a b => le a b = true) := by
  intro l
  induction l with
  | nil => intro _; simp [insertSorted]
  | cons y ys ih =>
    intro hs
    rcases List.sorted_cons.mp hs with ⟨hy, hys⟩
    simp only [insertSorted]
    split
    · rename_i hyx
      refine List.sorted_cons.mpr ⟨?_, ih hys⟩
      intro z hz
      rcases (mem_insertSorted le x ys z).mp hz with rfl | hz'
      · exact hyx
      · exact hy z hz'
    · rename_i hyx
      have hxy : le x y = true := (htot x y).resolve_right hyx
      refine List.sorted_cons.mpr ⟨?_, hs⟩
      intro z hz
      rcases List.mem_cons.mp hz with rfl | hz'
      · exact hxy
      · exact htrans x y z hxy (hy z hz')

theorem sorted_pySortBy {α : Type} (le : α → α → Bool)
    (htot : ∀ a b, le a b = true ∨ le b a = true)
    (htrans : ∀ a b c, le a b = true → le b c = true → le a c = true) (l : List α) :
    (pySortBy le l).Sorted (fun a b => le a b = true) := by
  have aux : ∀ (l' : List α) (acc : List α), acc.Sorted (fun a b => le a b = true) →
      (l'.foldl (fun acc x => insertSorted le x acc) acc).Sorted (fun a b => le a b = true) := by
    intro l'
    induction l' with
    | nil => intro acc h; exact h
    | cons x l' ih =>
      intro acc h
      exact ih _ (sorted_insertSorted le htot htrans x acc h)
  exact aux l [] (List.sorted_nil)

theorem colLE_total (cols : List (String × Nat)) (a b : String) :
    colLE cols a b = true ∨ colLE cols b a = true := by
  rcases Nat.le_total (pyGetD cols a 0) (pyGetD cols b 0) with h | h
  · exact Or.inl (by simp [colLE, h])
  · exact Or.inr (by simp [colLE, h])

theorem colLE_trans (cols : List (String × Nat)) (a b c : String)
    (h1 : colLE cols a b = true) (h2 : colLE cols b c = true) : colLE cols a c = true := by
  simp only [colLE, decide_eq_true_eq] at h1 h2 ⊢
  exact le_trans h1 h2

theorem detectPWT_template_branch (s : Sheet) (std : DetectState)
    (h1 : (altDetect s).1.length < 50)
    (h2 : detectPeriodsStd s = Except.ok std)
    (h3 : (mergeDetected (altDetect s) std).1.length < 70)
    (h4 : suggestTemplatesFromSamples (mergeDetected (altDetect s) std).1 ≠ []) :
    detectPeriodsWithTemplates s [] =
      Except.ok (pySortBy (colLE (enhTT s std).2) (enhTT s std).1, (enhTT s std).2) := by
  unfold detectPeriodsWithTemplates
  rw [if_neg (not_le.mpr h1), h2]
  simp only []
  rw [if_pos h3]
  split
  · split
    · rename_i hh
      exact absurd (List.isEmpty_iff.mp hh) h4
    · rfl
  · rename_i hfalse
    exact absurd rfl hfalse

/-- Claim C5 (amended): when the template-enhancement branch runs (fewer
than 50 alternative periods, fewer than 70 merged periods, at least one
derivable template), the returned period list is sorted ascending by
recorded column index; on the literal example header the detected
periods are 1Q25, 2Q25, 3Q25E at recorded Excel columns 2, 3, 4 in that
order.  Outside this branch periods stay in row-major discovery order. -/
theorem c5_sorted_detection :
    (∀ (s : Sheet) (std : DetectState),
      (altDetect s).1.length < 50 →
      detectPeriodsStd s = Except.ok std →
      (mergeDetected (altDetect s) std).1.length < 70 →
      suggestTemplatesFromSamples (mergeDetected (altDetect s) std).1 ≠ [] →
      ∃ ps cols, detectPeriodsWithTemplates s [] = Except.ok (ps, cols) ∧
        ps.Sorted (fun a b => pyGetD cols a 0 ≤ pyGetD cols b 0)) ∧
    detectPeriodsWithTemplates exampleSheet [] =
      Except.ok (["1Q25", "2Q25", "3Q25E"], [("1Q25", 2), ("2Q25", 3), ("3Q25E", 4)]) := by
  constructor
  · intro s std h1 h2 h3 h4
    refine ⟨pySortBy (colLE (enhTT s std).2) (enhTT s std).1, (enhTT s std).2,
      detectPWT_template_branch s std h1 h2 h3 h4, ?_⟩
    have hs := sorted_pySortBy (colLE (enhTT s std).2) (colLE_total _) (colLE_trans _)
      (enhTT s std).1
    exact hs.imp (fun h => by simpa [colLE, decide_eq_true_eq] using h)
  · rfl

/-- Counterexample for C5 as stated: a sheet with a valid header row
(row 1) whose detected periods come from two different rows is returned
in discovery order with recorded columns 2, 3, 4, 2 - not ascending. -/
theorem c5_counterexample :
    findPeriodHeaderRow multiRowSheet = Except.ok 1 ∧
    detectPeriodsWithTemplates multiRowSheet [] =
      Except.ok (["Mar 2024", "Apr 2024", "May 2024", "Jun 2024"], mrCols) ∧
    ¬(["Mar 2024", "Apr 2024", "May 2024", "Jun 2024"].Sorted
      (fun a b => pyGetD mrCols a 0 ≤ pyGetD mrCols b 0)) := by
  refine ⟨rfl, rfl, ?_⟩
  intro h
  have := (List.sorted_cons.mp (List.sorted_cons.mp (List.sorted_cons.mp h).2).2).1
    "Jun 2024" (List.mem_singleton.mpr rfl)
  simp [pyGetD, pyGet, mrCols] at this

/-- Witness for C5: the example sheet satisfies all branch conditions,
so the amended theorem applies to it. -/
theorem c5_witness :
    ∃ ps cols, detectPeriodsWithTemplates exampleSheet [] = Except.ok (ps, cols) ∧
      ps.Sorted (fun a b => pyGetD cols a 0 ≤ pyGetD cols b 0) :=
  c5_sorted_detection.1 exampleSheet
    (["1Q25", "2Q25", "3Q25E"], [("1Q25", 2), ("2Q25", 3), ("3Q25E", 4)])
    (by decide) rfl (by decide) (by decide)

/-!  Claim C2: symmetry of match_line_items on parser-built statements. -/

theorem exactLoop_matches :
    ∀ (olds news : List PyKey), olds.Nodup → news.Nodup →
      (exactLoop olds news).1 =
        (olds.filter (fun k => decide (k ∈ news))).map (fun k => (k, k)) := by
  intro olds
  induction olds with
  | nil => intro news _ _; rfl
  | cons o olds ih =>
    intro news hno hnn
    rcases List.nodup_cons.mp hno with ⟨honotin, holds⟩
    simp only [exactLoop]
    by_cases ho : o ∈ news
    · rw [if_pos ho]
      simp only [List.filter_cons, decide_eq_true ho, List.map_cons]
      rw [ih (news.erase o) holds (List.Nodup.erase o hnn)]
      congr 1
      apply congrArg
      apply List.filter_congr
      intro k hk
      have hko : k ≠ o := fun hh => honotin (hh ▸ hk)
      simp [List.mem_erase_of_ne hko]
    · rw [if_neg ho]
      simp only [List.filter_cons, decide_eq_false ho]
      exact ih news holds hnn

theorem exactLoop_remOld :
    ∀ (olds news : List PyKey), olds.Nodup → news.Nodup →
      (exactLoop olds news).2.1 = olds.filter (fun k => decide (k ∉ news)) := by
  intro olds
  induction olds with
  | nil => intro news _ _; rfl
  | cons o olds ih =>
    intro news hno hnn
    rcases List.nodup_cons.mp hno with ⟨honotin, holds⟩
    simp only [exactLoop]
    by_cases ho : o ∈ news
    · rw [if_pos ho]
      simp only [List.filter_cons, decide_eq_false ((not_not.mpr ho) : ¬¬o ∈ news)]
      rw [ih (news.erase o) holds (List.Nodup.erase o hnn)]
      apply List.filter_congr
      intro k hk
      have hko : k ≠ o := fun hh => honotin (hh ▸ hk)
      simp [List.mem_erase_of_ne hko]
    · rw [if_neg ho]
      simp only [List.filter_cons, decide_eq_true ho]
      rw [ih news holds hnn]
      simp

theorem exactLoop_remNew :
    ∀ (olds news : List PyKey), olds.Nodup → news.Nodup →
      (exactLoop olds news).2.2 = news.filter (fun k => decide (k ∉ olds)) := by
  intro olds
  induction olds with
  | nil =>
    intro news _ _
    exact (List.filter_eq_self.mpr (fun a _ => by simp)).symm
  | cons o olds ih =>
    intro news hno hnn
    rcases List.nodup_cons.mp hno with ⟨honotin, holds⟩
    simp only [exactLoop]
    by_cases ho : o ∈ news
    · rw [if_pos ho]
      rw [ih (news.erase o) holds (List.Nodup.erase o hnn)]
      rw [List.Nodup.erase_eq_filter hnn o, List.filter_filter]
      apply List.filter_congr
      intro k hk
      by_cases hko : k = o
      · simp [hko]
      · simp [hko, List.mem_cons]
    · rw [if_neg ho]
      rw [ih news holds hnn]
      apply List.filter_congr
      intro k hk
      have hko : k ≠ o := fun hh => ho (hh ▸ hk)
      simp [hko, List.mem_cons]

theorem fuzzyLoop_nil_news : ∀ (olds : List PyKey) (ms : List (PyKey × PyKey)),
    fuzzyLoop olds [] ms = Except.ok ms := by
  intro olds
  induction olds with
  | nil => intro ms; rfl
  | cons o olds ih => intro ms; exact ih ms

theorem fuzzyLoop_err (o : PyKey) (olds : List PyKey) (n : PyKey) (news : List PyKey)
    (ms : List (PyKey × PyKey)) (ho : isIntKey o = true) :
    fuzzyLoop (o :: olds) (n :: news) ms = Except.error attrLowerErr := by
  cases o with
  | int m => rfl
  | str s => exact absurd ho (by simp [isIntKey])

theorem diag_toFinset_swap (xs ys : List PyKey) :
    ((xs.filter (fun k => decide (k ∈ ys))).map (fun k => (k, k))).toFinset =
      (((ys.filter (fun k => decide (k ∈ xs))).map (fun k => (k, k))).map
        Prod.swap).toFinset := by
  have hswap : ((ys.filter (fun k => decide (k ∈ xs))).map (fun k => (k, k))).map
      Prod.swap = (ys.filter (fun k => decide (k ∈ xs))).map (fun k => (k, k)) := by
    rw [List.map_map]
    rfl
  rw [hswap]
  ext p
  simp only [List.mem_toFinset, List.mem_map, List.mem_filter, decide_eq_true_eq]
  constructor
  · rintro ⟨k, ⟨h1, h2⟩, h3⟩
    exact ⟨k, ⟨h2, h1⟩, h3⟩
  · rintro ⟨k, ⟨h1, h2⟩, h3⟩
    exact ⟨k, ⟨h2, h1⟩, h3⟩

/-- Claim C2 (amended): on statements whose line_items dicts are keyed by
int row numbers (as the parser always produces) with no duplicate keys,
match_line_items(A,B) and match_line_items(B,A) either both raise
AttributeError (exactly when both directions leave unmatched row keys for
the fuzzy pass) or both return, and then their returned pair sets are
equal up to swapping components. -/
theorem c2_swap (A B : FinancialStatement)
    (hA : allIntKeys A = true) (hB : allIntKeys B = true)
    (hA' : (dictKeys A.line_items).Nodup) (hB' : (dictKeys B.line_items).Nodup) :
    (matchLineItems A B = Except.error attrLowerErr ∧
     matchLineItems B A = Except.error attrLowerErr) ∨
    (∃ l₁ l₂, matchLineItems A B = Except.ok l₁ ∧ matchLineItems B A = Except.ok l₂ ∧
      l₁.toFinset = (l₂.map Prod.swap).toFinset) := by
  have hAB : matchLineItems A B =
      fuzzyLoop ((dictKeys A.line_items).filter (fun k => decide (k ∉ dictKeys B.line_items)))
        ((dictKeys B.line_items).filter (fun k => decide (k ∉ dictKeys A.line_items)))
        (((dictKeys A.line_items).filter (fun k => decide (k ∈ dictKeys B.line_items))).map
          (fun k => (k, k))) := by
    unfold matchLineItems
    simp only []
    rw [exactLoop_remOld _ _ hA' hB', exactLoop_remNew _ _ hA' hB',
      exactLoop_matches _ _ hA' hB']
  have hBA : matchLineItems B A =
      fuzzyLoop ((dictKeys B.line_items).filter (fun k => decide (k ∉ dictKeys A.line_items)))
        ((dictKeys A.line_items).filter (fun k => decide (k ∉ dictKeys B.line_items)))
        (((dictKeys B.line_items).filter (fun k => decide (k ∈ dictKeys A.line_items))).map
          (fun k => (k, k))) := by
    unfold matchLineItems
    simp only []
    rw [exactLoop_remOld _ _ hB' hA', exactLoop_remNew _ _ hB' hA',
      exactLoop_matches _ _ hB' hA']
  rcases hro : (dictKeys A.line_items).filter
      (fun k => decide (k ∉ dictKeys B.line_items)) with _ | ⟨o, ro⟩
  · right
    refine ⟨((dictKeys A.line_items).filter
        (fun k => decide (k ∈ dictKeys B.line_items))).map (fun k => (k, k)),
      ((dictKeys B.line_items).filter
        (fun k => decide (k ∈ dictKeys A.line_items))).map (fun k => (k, k)),
      ?_, ?_, diag_toFinset_swap _ _⟩
    · rw [hAB, hro]
      rfl
    · rw [hBA, hro]
      exact fuzzyLoop_nil_news _ _
  · rcases hrn : (dictKeys B.line_items).filter
        (fun k => decide (k ∉ dictKeys A.line_items)) with _ | ⟨n, rn⟩
    · right
      refine ⟨((dictKeys A.line_items).filter
          (fun k => decide (k ∈ dictKeys B.line_items))).map (fun k => (k, k)),
        ((dictKeys B.line_items).filter
          (fun k => decide (k ∈ dictKeys A.line_items))).map (fun k => (k, k)),
        ?_, ?_, diag_toFinset_swap _ _⟩
      · rw [hAB, hro, hrn]
        exact fuzzyLoop_nil_news _ _
      · rw [hBA, hrn]
        rfl
    · left
      have hoInt : isIntKey o = true := by
        have hmem : o ∈ (dictKeys A.line_items).filter
            (fun k => decide (k ∉ dictKeys B.line_items)) := by
          rw [hro]; exact List.mem_cons_self _ _
        exact (List.all_eq_true.mp hA) o (List.mem_filter.mp hmem).1
      have hnInt : isIntKey n = true := by
        have hmem : n ∈ (dictKeys B.line_items).filter
            (fun k => decide (k ∉ dictKeys A.line_items)) := by
          rw [hrn]; exact List.mem_cons_self _ _
        exact (List.all_eq_true.mp hB) n (List.mem_filter.mp hmem).1
      constructor
      · rw [hAB, hro, hrn]
        exact fuzzyLoop_err o ro n rn _ hoInt
      · rw [hBA, hrn, hro]
        exact fuzzyLoop_err n rn o ro _ hnInt

/-- Counterexample for C2 as stated: on the concrete parser-built pair of
statements, neither direction produces any pair list; both raise
AttributeError in the fuzzy pass. -/
theorem c2_counterexample :
    matchLineItems stOldTR stNewTR = Except.error attrLowerErr ∧
    matchLineItems stNewTR stOldTR = Except.error attrLowerErr :=
  ⟨rfl, rfl⟩

/-- Witness for C2: the amended theorem applied to the concrete
statements stOldTR and stNewTR. -/
theorem c2_witness :
    (matchLineItems stOldTR stNewTR = Except.error attrLowerErr ∧
     matchLineItems stNewTR stOldTR = Except.error attrLowerErr) ∨
    (∃ l₁ l₂, matchLineItems stOldTR stNewTR = Except.ok l₁ ∧
      matchLineItems stNewTR stOldTR = Except.ok l₂ ∧
      l₁.toFinset = (l₂.map Prod.swap).toFinset) :=
  c2_swap stOldTR stNewTR (by decide) (by decide) (by decide) (by decide)

end FMA

